import Mathlib

/-!
Shallow embedding of the deterministic tool layer of the repository:
the static knowledge tables (`CREATIO_SCHEMA_KNOWLEDGE`, `CRM_KPI_LIBRARY`),
the lookup/formatter tools under `creatio_crm_crew/tools`, the keyword
routing in `CreatioCRMCrew.ask_question`, and the `TicketCreatorTool` of
`devlifecycle_crew`.  Each Lean function embeds the body of the Python
method of the same name; Python dictionaries of fixed shape become
structures or inductive result types, and the `str(...)` rendering of a
result dictionary is left implicit (it is injective on each result type,
so equality/difference of rendered strings is equality/difference of the
modelled results).  String literals reproduce the source except that the
apostrophe and backtick characters are written with \x escapes and
quotation marks around interpolated values are elided.
-/

/-- Python `str.lower()` on the (ASCII) data appearing in this repository:
lowercase character by character. -/
def lowerS (s : String) : String := String.mk (s.data.map Char.toLower)

/-- Python `str.upper()` (ASCII): uppercase character by character. -/
def upperS (s : String) : String := String.mk (s.data.map Char.toUpper)

/-- Python `str.strip()` on a character list: drop leading and trailing
whitespace. -/
def stripL (l : List Char) : List Char :=
  ((l.dropWhile Char.isWhitespace).reverse.dropWhile Char.isWhitespace).reverse

/-- Python `str.strip()`. -/
def pyStrip (s : String) : String := String.mk (stripL s.data)

/-- `needle` occurs as a contiguous sublist starting at some position of
`hay` (structural recursion on `hay`). -/
def containsSubAux (needle : List Char) : List Char → Bool
  | [] => needle.isEmpty
  | c :: rest => needle.isPrefixOf (c :: rest) || containsSubAux needle rest

/-- Python `needle in hay` on strings: substring containment. -/
def containsSub (hay needle : String) : Bool := containsSubAux needle.data hay.data

/-- Python `s.split(sep)` for a one-character separator, on character
lists (both separators used in the source, `','` and `'.'`, are single
characters).  `"".split(sep)` is `[""]`, as in Python. -/
def pySplitAux (sep : Char) : List Char → List Char → List (List Char)
  | [], acc => [acc.reverse]
  | c :: rest, acc =>
      if c == sep then acc.reverse :: pySplitAux sep rest []
      else pySplitAux sep rest (c :: acc)

/-- Python `s.split(sep)` for a one-character separator. -/
def pySplit (s : String) (sep : Char) : List String :=
  (pySplitAux sep s.data []).map String.mk

/-- Python `s.endswith(suffix)`. -/
def strEndsWith (s suffix : String) : Bool := suffix.data.isSuffixOf s.data

/-- Python `s.replace(old, new)` for a one-character `old` (the only form
the source uses). -/
def pyReplace1 (s : String) (old : Char) (new : String) : String :=
  String.mk (s.data.flatMap (fun c => if c == old then new.data else [c]))

/-- A column record of `CREATIO_SCHEMA_KNOWLEDGE` (`name`/`type`/`description`). -/
structure Column where
  name : String
  type : String
  description : String
deriving DecidableEq

/-- The third key of a relationship record: exactly one of `column`,
`via` or `detail: True` appears in every source literal. -/
inductive RelExtra where
  | column (c : String)
  | viaJunction (v : String)
  | detail
deriving DecidableEq

/-- A relationship record of `CREATIO_SCHEMA_KNOWLEDGE`. -/
structure Relationship where
  entity : String
  type : String
  extra : RelExtra
deriving DecidableEq

/-- An entity record of `CREATIO_SCHEMA_KNOWLEDGE`. -/
structure EntityInfo where
  description : String
  table_name : String
  key_columns : List Column
  relationships : List Relationship
deriving DecidableEq

/-- A value of a KPI record field: a string or a list of strings. -/
inductive KField where
  | str (v : String)
  | strs (v : List String)
deriving DecidableEq

/-- A KPI record of `CRM_KPI_LIBRARY`, kept as the association list the
source dict literal writes, so that key presence/uniqueness is checkable. -/
def KpiRecord := List (String × KField)
deriving DecidableEq

/-- `record["k"]` when the value is a string (`""` when absent, which never
happens on the stored data). -/
def kpiGetS (r : KpiRecord) (k : String) : String :=
  match r.find? (fun p => p.1 == k) with
  | some (_, KField.str v) => v
  | _ => ""

/-- `record["k"]` when the value is a list of strings. -/
def kpiGetL (r : KpiRecord) (k : String) : List String :=
  match r.find? (fun p => p.1 == k) with
  | some (_, KField.strs v) => v
  | _ => []
def CREATIO_SCHEMA_KNOWLEDGE : List (String × EntityInfo) := [
  ("Contact",
    { description := "Core entity storing person/individual information",
      table_name := "Contact",
      key_columns := [
      ⟨"Id", "uniqueidentifier", "Primary key"⟩,
      ⟨"Name", "nvarchar(250)", "Full name of the contact"⟩,
      ⟨"AccountId", "uniqueidentifier", "FK to Account - associated company"⟩,
      ⟨"Email", "nvarchar(250)", "Primary email address"⟩,
      ⟨"Phone", "nvarchar(250)", "Primary phone number"⟩,
      ⟨"MobilePhone", "nvarchar(250)", "Mobile phone number"⟩,
      ⟨"JobTitle", "nvarchar(250)", "Contact\x27s job title"⟩,
      ⟨"DepartmentId", "uniqueidentifier", "FK to Department lookup"⟩,
      ⟨"OwnerId", "uniqueidentifier", "FK to Contact - record owner"⟩,
      ⟨"TypeId", "uniqueidentifier", "FK to ContactType lookup"⟩,
      ⟨"CreatedOn", "datetime", "Record creation timestamp"⟩,
      ⟨"ModifiedOn", "datetime", "Last modification timestamp"⟩],
      relationships := [
      ⟨"Account", "many-to-one", RelExtra.column "AccountId"⟩,
      ⟨"Activity", "one-to-many", RelExtra.detail⟩,
      ⟨"Opportunity", "one-to-many", RelExtra.viaJunction "OpportunityContact"⟩,
      ⟨"Lead", "one-to-one", RelExtra.column "QualifiedContactId"⟩] }),
  ("Account",
    { description := "Core entity storing company/organization information",
      table_name := "Account",
      key_columns := [
      ⟨"Id", "uniqueidentifier", "Primary key"⟩,
      ⟨"Name", "nvarchar(250)", "Company name"⟩,
      ⟨"TypeId", "uniqueidentifier", "FK to AccountType lookup"⟩,
      ⟨"IndustryId", "uniqueidentifier", "FK to AccountIndustry lookup"⟩,
      ⟨"OwnerId", "uniqueidentifier", "FK to Contact - account owner"⟩,
      ⟨"PrimaryContactId", "uniqueidentifier", "FK to Contact - primary contact"⟩,
      ⟨"Phone", "nvarchar(250)", "Main phone number"⟩,
      ⟨"Web", "nvarchar(250)", "Website URL"⟩,
      ⟨"AnnualRevenue", "decimal", "Annual revenue amount"⟩,
      ⟨"EmployeesNumber", "int", "Number of employees"⟩,
      ⟨"CreatedOn", "datetime", "Record creation timestamp"⟩,
      ⟨"ModifiedOn", "datetime", "Last modification timestamp"⟩],
      relationships := [
      ⟨"Contact", "one-to-many", RelExtra.column "AccountId"⟩,
      ⟨"Opportunity", "one-to-many", RelExtra.column "AccountId"⟩,
      ⟨"Activity", "one-to-many", RelExtra.detail⟩,
      ⟨"Case", "one-to-many", RelExtra.column "AccountId"⟩] }),
  ("Opportunity",
    { description := "Sales opportunity/deal tracking entity",
      table_name := "Opportunity",
      key_columns := [
      ⟨"Id", "uniqueidentifier", "Primary key"⟩,
      ⟨"Title", "nvarchar(250)", "Opportunity name/title"⟩,
      ⟨"AccountId", "uniqueidentifier", "FK to Account"⟩,
      ⟨"StageId", "uniqueidentifier", "FK to OpportunityStage lookup"⟩,
      ⟨"Amount", "decimal", "Deal value/amount"⟩,
      ⟨"Probability", "int", "Win probability percentage"⟩,
      ⟨"OwnerId", "uniqueidentifier", "FK to Contact - opportunity owner"⟩,
      ⟨"CloseDate", "datetime", "Expected close date"⟩,
      ⟨"DueDate", "datetime", "Due date"⟩,
      ⟨"LeadTypeId", "uniqueidentifier", "FK to LeadType - source type"⟩,
      ⟨"IsPrimary", "bit", "Primary opportunity flag"⟩,
      ⟨"CreatedOn", "datetime", "Record creation timestamp"⟩,
      ⟨"ModifiedOn", "datetime", "Last modification timestamp"⟩],
      relationships := [
      ⟨"Account", "many-to-one", RelExtra.column "AccountId"⟩,
      ⟨"Contact", "many-to-many", RelExtra.viaJunction "OpportunityContact"⟩,
      ⟨"OpportunityStage", "many-to-one", RelExtra.column "StageId"⟩,
      ⟨"Product", "many-to-many", RelExtra.viaJunction "OpportunityProductInterest"⟩,
      ⟨"Activity", "one-to-many", RelExtra.detail⟩] }),
  ("Lead",
    { description := "Sales lead entity - potential customers before qualification",
      table_name := "Lead",
      key_columns := [
      ⟨"Id", "uniqueidentifier", "Primary key"⟩,
      ⟨"LeadName", "nvarchar(250)", "Lead name/title"⟩,
      ⟨"Contact", "nvarchar(250)", "Contact person name"⟩,
      ⟨"Account", "nvarchar(250)", "Company name (text)"⟩,
      ⟨"Email", "nvarchar(250)", "Email address"⟩,
      ⟨"MobilePhone", "nvarchar(250)", "Mobile phone"⟩,
      ⟨"QualifyStatusId", "uniqueidentifier", "FK to QualifyStatus lookup"⟩,
      ⟨"LeadSourceId", "uniqueidentifier", "FK to LeadSource lookup"⟩,
      ⟨"LeadTypeId", "uniqueidentifier", "FK to LeadType lookup"⟩,
      ⟨"OwnerId", "uniqueidentifier", "FK to Contact - lead owner"⟩,
      ⟨"QualifiedContactId", "uniqueidentifier", "FK to Contact - converted contact"⟩,
      ⟨"QualifiedAccountId", "uniqueidentifier", "FK to Account - converted account"⟩,
      ⟨"Budget", "decimal", "Estimated budget"⟩,
      ⟨"CreatedOn", "datetime", "Record creation timestamp"⟩],
      relationships := [
      ⟨"Contact", "one-to-one", RelExtra.column "QualifiedContactId"⟩,
      ⟨"Account", "one-to-one", RelExtra.column "QualifiedAccountId"⟩,
      ⟨"Activity", "one-to-many", RelExtra.detail⟩] }),
  ("Activity",
    { description := "Activities including calls, emails, tasks, meetings",
      table_name := "Activity",
      key_columns := [
      ⟨"Id", "uniqueidentifier", "Primary key"⟩,
      ⟨"Title", "nvarchar(500)", "Activity subject/title"⟩,
      ⟨"TypeId", "uniqueidentifier", "FK to ActivityType lookup"⟩,
      ⟨"StatusId", "uniqueidentifier", "FK to ActivityStatus lookup"⟩,
      ⟨"PriorityId", "uniqueidentifier", "FK to ActivityPriority lookup"⟩,
      ⟨"OwnerId", "uniqueidentifier", "FK to Contact - activity owner"⟩,
      ⟨"ContactId", "uniqueidentifier", "FK to Contact - related contact"⟩,
      ⟨"AccountId", "uniqueidentifier", "FK to Account - related account"⟩,
      ⟨"OpportunityId", "uniqueidentifier", "FK to Opportunity"⟩,
      ⟨"StartDate", "datetime", "Activity start date/time"⟩,
      ⟨"DueDate", "datetime", "Activity due date/time"⟩,
      ⟨"ResultId", "uniqueidentifier", "FK to ActivityResult lookup"⟩,
      ⟨"CreatedOn", "datetime", "Record creation timestamp"⟩],
      relationships := [
      ⟨"Contact", "many-to-one", RelExtra.column "ContactId"⟩,
      ⟨"Account", "many-to-one", RelExtra.column "AccountId"⟩,
      ⟨"Opportunity", "many-to-one", RelExtra.column "OpportunityId"⟩,
      ⟨"ActivityParticipant", "one-to-many", RelExtra.detail⟩] }),
  ("Case",
    { description := "Customer service case/ticket entity",
      table_name := "Case",
      key_columns := [
      ⟨"Id", "uniqueidentifier", "Primary key"⟩,
      ⟨"Number", "nvarchar(250)", "Case number"⟩,
      ⟨"Subject", "nvarchar(500)", "Case subject"⟩,
      ⟨"StatusId", "uniqueidentifier", "FK to CaseStatus lookup"⟩,
      ⟨"PriorityId", "uniqueidentifier", "FK to CasePriority lookup"⟩,
      ⟨"CategoryId", "uniqueidentifier", "FK to CaseCategory lookup"⟩,
      ⟨"ContactId", "uniqueidentifier", "FK to Contact - reporting contact"⟩,
      ⟨"AccountId", "uniqueidentifier", "FK to Account - associated account"⟩,
      ⟨"OwnerId", "uniqueidentifier", "FK to Contact - case owner"⟩,
      ⟨"GroupId", "uniqueidentifier", "FK to SysAdminUnit - assigned group"⟩,
      ⟨"RegisteredOn", "datetime", "Registration timestamp"⟩,
      ⟨"SolutionDate", "datetime", "Solution/resolution date"⟩,
      ⟨"SatisfactionLevelId", "uniqueidentifier", "FK to SatisfactionLevel lookup"⟩,
      ⟨"CreatedOn", "datetime", "Record creation timestamp"⟩],
      relationships := [
      ⟨"Contact", "many-to-one", RelExtra.column "ContactId"⟩,
      ⟨"Account", "many-to-one", RelExtra.column "AccountId"⟩,
      ⟨"Activity", "one-to-many", RelExtra.detail⟩] }),
  ("Product",
    { description := "Product catalog entity",
      table_name := "Product",
      key_columns := [
      ⟨"Id", "uniqueidentifier", "Primary key"⟩,
      ⟨"Name", "nvarchar(250)", "Product name"⟩,
      ⟨"Code", "nvarchar(50)", "Product code/SKU"⟩,
      ⟨"TypeId", "uniqueidentifier", "FK to ProductType lookup"⟩,
      ⟨"CategoryId", "uniqueidentifier", "FK to ProductCategory lookup"⟩,
      ⟨"Price", "decimal", "Unit price"⟩,
      ⟨"IsActive", "bit", "Active flag"⟩,
      ⟨"Description", "nvarchar(max)", "Product description"⟩,
      ⟨"CreatedOn", "datetime", "Record creation timestamp"⟩],
      relationships := [
      ⟨"Opportunity", "many-to-many", RelExtra.viaJunction "OpportunityProductInterest"⟩,
      ⟨"Order", "one-to-many", RelExtra.viaJunction "OrderProduct"⟩] }),
  ("Order",
    { description := "Sales order entity",
      table_name := "Order",
      key_columns := [
      ⟨"Id", "uniqueidentifier", "Primary key"⟩,
      ⟨"Number", "nvarchar(250)", "Order number"⟩,
      ⟨"AccountId", "uniqueidentifier", "FK to Account - customer"⟩,
      ⟨"ContactId", "uniqueidentifier", "FK to Contact - order contact"⟩,
      ⟨"OpportunityId", "uniqueidentifier", "FK to Opportunity - source opportunity"⟩,
      ⟨"StatusId", "uniqueidentifier", "FK to OrderStatus lookup"⟩,
      ⟨"Amount", "decimal", "Order total amount"⟩,
      ⟨"OwnerId", "uniqueidentifier", "FK to Contact - order owner"⟩,
      ⟨"Date", "datetime", "Order date"⟩,
      ⟨"CreatedOn", "datetime", "Record creation timestamp"⟩],
      relationships := [
      ⟨"Account", "many-to-one", RelExtra.column "AccountId"⟩,
      ⟨"Contact", "many-to-one", RelExtra.column "ContactId"⟩,
      ⟨"Opportunity", "many-to-one", RelExtra.column "OpportunityId"⟩,
      ⟨"OrderProduct", "one-to-many", RelExtra.detail⟩] }),
  ("SysAdminUnit",
    { description := "System users and groups (security model)",
      table_name := "SysAdminUnit",
      key_columns := [
      ⟨"Id", "uniqueidentifier", "Primary key"⟩,
      ⟨"Name", "nvarchar(250)", "User/group name"⟩,
      ⟨"ContactId", "uniqueidentifier", "FK to Contact - linked contact"⟩,
      ⟨"SysAdminUnitTypeId", "uniqueidentifier", "FK - user type (user, role, org)"⟩,
      ⟨"ParentRoleId", "uniqueidentifier", "FK to parent role/group"⟩,
      ⟨"Active", "bit", "Active flag"⟩,
      ⟨"LoggedIn", "bit", "Currently logged in flag"⟩],
      relationships := [
      ⟨"Contact", "one-to-one", RelExtra.column "ContactId"⟩,
      ⟨"SysAdminUnit", "self-referencing", RelExtra.column "ParentRoleId"⟩] })]

def CRM_KPI_LIBRARY : List (String × List (String × KpiRecord)) := [
  ("sales", [
    ("pipeline_value", [
      ("name", KField.str "Pipeline Value"),
      ("description", KField.str "Total value of open opportunities in the sales pipeline"),
      ("formula", KField.str "SUM(Opportunity.Amount) WHERE Opportunity.Stage.IsFinal = 0"),
      ("unit", KField.str "currency"),
      ("frequency", KField.str "daily"),
      ("entities", KField.strs ["Opportunity", "OpportunityStage"])]),
    ("win_rate", [
      ("name", KField.str "Win Rate"),
      ("description", KField.str "Percentage of opportunities closed as won"),
      ("formula", KField.str "(COUNT(Won Opportunities) / COUNT(All Closed Opportunities)) * 100"),
      ("unit", KField.str "percentage"),
      ("frequency", KField.str "monthly"),
      ("entities", KField.strs ["Opportunity", "OpportunityStage"])]),
    ("average_deal_size", [
      ("name", KField.str "Average Deal Size"),
      ("description", KField.str "Average value of closed-won opportunities"),
      ("formula", KField.str "AVG(Opportunity.Amount) WHERE Stage.Name = \x27Closed won\x27"),
      ("unit", KField.str "currency"),
      ("frequency", KField.str "monthly"),
      ("entities", KField.strs ["Opportunity"])]),
    ("sales_cycle_length", [
      ("name", KField.str "Sales Cycle Length"),
      ("description", KField.str "Average days from opportunity creation to close"),
      ("formula", KField.str "AVG(DATEDIFF(day, Opportunity.CreatedOn, Opportunity.CloseDate))"),
      ("unit", KField.str "days"),
      ("frequency", KField.str "monthly"),
      ("entities", KField.strs ["Opportunity"])]),
    ("lead_conversion_rate", [
      ("name", KField.str "Lead Conversion Rate"),
      ("description", KField.str "Percentage of leads converted to opportunities"),
      ("formula", KField.str "(COUNT(Converted Leads) / COUNT(All Leads)) * 100"),
      ("unit", KField.str "percentage"),
      ("frequency", KField.str "monthly"),
      ("entities", KField.strs ["Lead"])]),
    ("revenue_by_rep", [
      ("name", KField.str "Revenue by Sales Rep"),
      ("description", KField.str "Total closed revenue per sales representative"),
      ("formula", KField.str "SUM(Opportunity.Amount) GROUP BY OwnerId WHERE Stage = \x27Closed won\x27"),
      ("unit", KField.str "currency"),
      ("frequency", KField.str "monthly"),
      ("entities", KField.strs ["Opportunity", "Contact"])]),
    ("quota_attainment", [
      ("name", KField.str "Quota Attainment"),
      ("description", KField.str "Percentage of sales quota achieved"),
      ("formula", KField.str "(Actual Revenue / Target Quota) * 100"),
      ("unit", KField.str "percentage"),
      ("frequency", KField.str "monthly"),
      ("entities", KField.strs ["Opportunity", "SalesTarget"])]),
    ("opportunity_velocity", [
      ("name", KField.str "Opportunity Velocity"),
      ("description", KField.str "Rate at which opportunities move through pipeline"),
      ("formula", KField.str "(# Opportunities * Win Rate * Avg Deal) / Sales Cycle"),
      ("unit", KField.str "currency/day"),
      ("frequency", KField.str "monthly"),
      ("entities", KField.strs ["Opportunity"])])]),
  ("marketing", [
    ("lead_volume", [
      ("name", KField.str "Lead Volume"),
      ("description", KField.str "Number of new leads created in period"),
      ("formula", KField.str "COUNT(Lead) WHERE CreatedOn IN period"),
      ("unit", KField.str "count"),
      ("frequency", KField.str "weekly"),
      ("entities", KField.strs ["Lead"])]),
    ("lead_source_effectiveness", [
      ("name", KField.str "Lead Source Effectiveness"),
      ("description", KField.str "Leads and conversions by source"),
      ("formula", KField.str "COUNT(Lead) GROUP BY LeadSourceId"),
      ("unit", KField.str "count"),
      ("frequency", KField.str "monthly"),
      ("entities", KField.strs ["Lead", "LeadSource"])]),
    ("marketing_qualified_leads", [
      ("name", KField.str "Marketing Qualified Leads (MQL)"),
      ("description", KField.str "Leads meeting marketing qualification criteria"),
      ("formula", KField.str "COUNT(Lead) WHERE QualifyStatus = \x27Marketing Qualified\x27"),
      ("unit", KField.str "count"),
      ("frequency", KField.str "weekly"),
      ("entities", KField.strs ["Lead", "QualifyStatus"])]),
    ("cost_per_lead", [
      ("name", KField.str "Cost Per Lead"),
      ("description", KField.str "Marketing spend divided by leads generated"),
      ("formula", KField.str "Marketing Spend / COUNT(Leads)"),
      ("unit", KField.str "currency"),
      ("frequency", KField.str "monthly"),
      ("entities", KField.strs ["Lead", "Campaign"])]),
    ("campaign_roi", [
      ("name", KField.str "Campaign ROI"),
      ("description", KField.str "Return on investment for marketing campaigns"),
      ("formula", KField.str "((Revenue - Cost) / Cost) * 100"),
      ("unit", KField.str "percentage"),
      ("frequency", KField.str "per_campaign"),
      ("entities", KField.strs ["Campaign", "Opportunity"])])]),
  ("customer_service", [
    ("case_volume", [
      ("name", KField.str "Case Volume"),
      ("description", KField.str "Total number of support cases"),
      ("formula", KField.str "COUNT(Case)"),
      ("unit", KField.str "count"),
      ("frequency", KField.str "daily"),
      ("entities", KField.strs ["Case"])]),
    ("average_resolution_time", [
      ("name", KField.str "Average Resolution Time"),
      ("description", KField.str "Average time to resolve cases"),
      ("formula", KField.str "AVG(DATEDIFF(hour, Case.RegisteredOn, Case.SolutionDate))"),
      ("unit", KField.str "hours"),
      ("frequency", KField.str "weekly"),
      ("entities", KField.strs ["Case"])]),
    ("first_response_time", [
      ("name", KField.str "First Response Time"),
      ("description", KField.str "Average time to first response on cases"),
      ("formula", KField.str "AVG(DATEDIFF(minute, Case.RegisteredOn, FirstActivity.StartDate))"),
      ("unit", KField.str "minutes"),
      ("frequency", KField.str "daily"),
      ("entities", KField.strs ["Case", "Activity"])]),
    ("customer_satisfaction", [
      ("name", KField.str "Customer Satisfaction (CSAT)"),
      ("description", KField.str "Average satisfaction score from case surveys"),
      ("formula", KField.str "AVG(Case.SatisfactionLevel.Score)"),
      ("unit", KField.str "score"),
      ("frequency", KField.str "weekly"),
      ("entities", KField.strs ["Case", "SatisfactionLevel"])]),
    ("sla_compliance", [
      ("name", KField.str "SLA Compliance Rate"),
      ("description", KField.str "Percentage of cases resolved within SLA"),
      ("formula", KField.str "(COUNT(Cases within SLA) / COUNT(All Cases)) * 100"),
      ("unit", KField.str "percentage"),
      ("frequency", KField.str "weekly"),
      ("entities", KField.strs ["Case", "ServicePact"])]),
    ("case_backlog", [
      ("name", KField.str "Case Backlog"),
      ("description", KField.str "Number of open unresolved cases"),
      ("formula", KField.str "COUNT(Case) WHERE Status.IsFinal = 0"),
      ("unit", KField.str "count"),
      ("frequency", KField.str "daily"),
      ("entities", KField.strs ["Case", "CaseStatus"])]),
    ("escalation_rate", [
      ("name", KField.str "Escalation Rate"),
      ("description", KField.str "Percentage of cases that required escalation"),
      ("formula", KField.str "(COUNT(Escalated Cases) / COUNT(All Cases)) * 100"),
      ("unit", KField.str "percentage"),
      ("frequency", KField.str "weekly"),
      ("entities", KField.strs ["Case"])])]),
  ("customer_health", [
    ("customer_lifetime_value", [
      ("name", KField.str "Customer Lifetime Value (CLV)"),
      ("description", KField.str "Total revenue expected from a customer relationship"),
      ("formula", KField.str "AVG Revenue per Period * Customer Lifespan"),
      ("unit", KField.str "currency"),
      ("frequency", KField.str "quarterly"),
      ("entities", KField.strs ["Account", "Order", "Opportunity"])]),
    ("churn_rate", [
      ("name", KField.str "Churn Rate"),
      ("description", KField.str "Percentage of customers lost in period"),
      ("formula", KField.str "(Lost Customers / Total Customers at Start) * 100"),
      ("unit", KField.str "percentage"),
      ("frequency", KField.str "monthly"),
      ("entities", KField.strs ["Account"])]),
    ("net_promoter_score", [
      ("name", KField.str "Net Promoter Score (NPS)"),
      ("description", KField.str "Customer loyalty and satisfaction metric"),
      ("formula", KField.str "% Promoters - % Detractors"),
      ("unit", KField.str "score"),
      ("frequency", KField.str "quarterly"),
      ("entities", KField.strs ["Contact", "Survey"])]),
    ("customer_engagement_score", [
      ("name", KField.str "Customer Engagement Score"),
      ("description", KField.str "Composite score of customer interaction levels"),
      ("formula", KField.str "Weighted sum of activities, responses, purchases"),
      ("unit", KField.str "score"),
      ("frequency", KField.str "monthly"),
      ("entities", KField.strs ["Account", "Activity", "Opportunity"])]),
    ("revenue_retention", [
      ("name", KField.str "Revenue Retention Rate"),
      ("description", KField.str "Percentage of revenue retained from existing customers"),
      ("formula", KField.str "((End Revenue - New Revenue) / Start Revenue) * 100"),
      ("unit", KField.str "percentage"),
      ("frequency", KField.str "monthly"),
      ("entities", KField.strs ["Account", "Order"])])]),
  ("activity_metrics", [
    ("activities_per_rep", [
      ("name", KField.str "Activities per Rep"),
      ("description", KField.str "Number of activities logged per sales rep"),
      ("formula", KField.str "COUNT(Activity) GROUP BY OwnerId"),
      ("unit", KField.str "count"),
      ("frequency", KField.str "weekly"),
      ("entities", KField.strs ["Activity", "Contact"])]),
    ("calls_made", [
      ("name", KField.str "Calls Made"),
      ("description", KField.str "Number of call activities completed"),
      ("formula", KField.str "COUNT(Activity) WHERE Type = \x27Call\x27"),
      ("unit", KField.str "count"),
      ("frequency", KField.str "daily"),
      ("entities", KField.strs ["Activity", "ActivityType"])]),
    ("emails_sent", [
      ("name", KField.str "Emails Sent"),
      ("description", KField.str "Number of email activities"),
      ("formula", KField.str "COUNT(Activity) WHERE Type = \x27Email\x27"),
      ("unit", KField.str "count"),
      ("frequency", KField.str "daily"),
      ("entities", KField.strs ["Activity", "ActivityType"])]),
    ("meetings_held", [
      ("name", KField.str "Meetings Held"),
      ("description", KField.str "Number of meeting activities completed"),
      ("formula", KField.str "COUNT(Activity) WHERE Type = \x27Meeting\x27 AND Status = \x27Completed\x27"),
      ("unit", KField.str "count"),
      ("frequency", KField.str "weekly"),
      ("entities", KField.strs ["Activity", "ActivityType", "ActivityStatus"])])])]

/-- The case-insensitive entity lookup loop shared by the schema tools:
first stored key whose lowercase equals the lowercase of the input. -/
def findEntityCI (s : String) : Option (String × EntityInfo) :=
  CREATIO_SCHEMA_KNOWLEDGE.find? (fun p => lowerS p.1 == lowerS s)

/-- Python `entity in CREATIO_SCHEMA_KNOWLEDGE` / `CREATIO_SCHEMA_KNOWLEDGE[entity]`:
exact-key dictionary access. -/
def findEntityExact (s : String) : Option EntityInfo :=
  (CREATIO_SCHEMA_KNOWLEDGE.find? (fun p => p.1 == s)).map (fun p => p.2)

/-- `list(CREATIO_SCHEMA_KNOWLEDGE.keys())`. -/
def schemaKeys : List String := CREATIO_SCHEMA_KNOWLEDGE.map (fun p => p.1)

/-- Result dictionary of `SchemaExplorerTool._run`; `failure` is the
`success: False` shape, `ok` the `success: True` shape (the optional
component models the `relationships`/`relationship_count` keys added only
when `include_relationships`). -/
inductive SchemaExplorerResult where
  | failure (error : String) (available_entities : List String) (suggestion : String)
  | ok (entity table_name description : String) (columns : List Column)
      (column_count : Nat) (relationships : Option (List Relationship × Nat))
deriving DecidableEq

/-- `SchemaExplorerTool._run`. -/
def SchemaExplorerTool.run (entity_name : String) (include_relationships : Bool) :
    SchemaExplorerResult :=
  let entity_key := pyStrip entity_name
  match findEntityCI entity_key with
  | none =>
      SchemaExplorerResult.failure
        ("Entity " ++ entity_name ++ " not found in schema knowledge base")
        schemaKeys
        ("Try one of: " ++ String.intercalate ", " schemaKeys)
  | some (matched_entity, info) =>
      SchemaExplorerResult.ok matched_entity info.table_name info.description
        info.key_columns info.key_columns.length
        (if include_relationships
         then some (info.relationships, info.relationships.length)
         else none)

/-- One entry of `relationship_paths` in `EntityRelationshipTool._run`. -/
structure RelPath where
  path : String
  via_relationship : String
  secondary_relationship : String
deriving DecidableEq

/-- Result dictionary of `EntityRelationshipTool._run`. -/
inductive EntityRelResult where
  | failure (error : String) (available_entities : List String)
  | ok (source_entity : String) (direct_relationships : List Relationship)
      (relationship_paths : List RelPath)
deriving DecidableEq

/-- `EntityRelationshipTool._run`.  An empty `target_entity` string is
falsy in Python, hence treated like `None`; a non-matching target leaves
the relationship list unfiltered, as in the source. -/
def EntityRelationshipTool.run (source_entity : String) (target_entity : Option String)
    (relationship_depth : Int) : EntityRelResult :=
  match CREATIO_SCHEMA_KNOWLEDGE.find? (fun p => lowerS p.1 == lowerS source_entity) with
  | none =>
      EntityRelResult.failure ("Source entity " ++ source_entity ++ " not found") schemaKeys
  | some (source_key, source_info) =>
      let relationships := source_info.relationships
      let relationships :=
        match target_entity with
        | some t =>
            if t == "" then relationships
            else
              match CREATIO_SCHEMA_KNOWLEDGE.find? (fun p => lowerS p.1 == lowerS t) with
              | some (target_key, _) =>
                  relationships.filter (fun r => lowerS r.entity == lowerS target_key)
              | none => relationships
        | none => relationships
      let paths :=
        if relationship_depth > 1 then
          relationships.flatMap (fun rel =>
            match findEntityExact rel.entity with
            | some related_info =>
                (related_info.relationships.take 3).filterMap (fun sec =>
                  if sec.entity ≠ source_key then
                    some { path := source_key ++ " -> " ++ rel.entity ++ " -> " ++ sec.entity
                           via_relationship := rel.type
                           secondary_relationship := sec.type }
                  else none)
            | none => [])
        else []
      EntityRelResult.ok source_key relationships paths

/-- The branch of the if/elif chain in `ColumnAnalyzerTool._run` that a
column falls into: 0 primary_key, 1 foreign_keys, 2 lookup_references,
3 datetime_columns, 4 data_columns. -/
def colBucket (c : Column) : Nat :=
  if c.name == "Id" then 0
  else if strEndsWith c.name "Id" && c.type == "uniqueidentifier" then
    (if containsSub c.description "FK" then 1 else 2)
  else if containsSub c.type "datetime" then 3
  else 4

/-- The `categorized` dictionary of `ColumnAnalyzerTool._run`. -/
structure Categorized where
  primary_key : List Column
  foreign_keys : List Column
  lookup_references : List Column
  data_columns : List Column
  datetime_columns : List Column
deriving DecidableEq

/-- The categorisation loop of `ColumnAnalyzerTool._run`: the if/elif chain
appends each column to exactly one list in input order, which equals the
per-branch filter of the input list. -/
def categorize (cols : List Column) : Categorized :=
  { primary_key := cols.filter (fun c => colBucket c == 0)
    foreign_keys := cols.filter (fun c => colBucket c == 1)
    lookup_references := cols.filter (fun c => colBucket c == 2)
    data_columns := cols.filter (fun c => colBucket c == 4)
    datetime_columns := cols.filter (fun c => colBucket c == 3) }

/-- `system_columns` in `ColumnAnalyzerTool._run`. -/
def systemColumns : List String :=
  ["CreatedOn", "ModifiedOn", "CreatedById", "ModifiedById", "ProcessListeners"]

/-- Result dictionary of `ColumnAnalyzerTool._run`.  Note the `failure`
shape carries no list of available entities in the source. -/
inductive ColumnAnalyzerResult where
  | failure (error : String)
  | ok (entity : String) (total_columns : Nat) (columns : List Column)
      (categorized : Categorized) (has_primary_key : Bool)
      (foreign_key_count : Nat) (is_highly_relational : Bool)
deriving DecidableEq

/-- The keys of the Python dictionary each result shape renders, read off
the two `return str({...})` literals of `ColumnAnalyzerTool._run`. -/
def ColumnAnalyzerResult.dictKeys : ColumnAnalyzerResult → List String
  | ColumnAnalyzerResult.failure _ => ["success", "error"]
  | ColumnAnalyzerResult.ok _ _ _ _ _ _ _ =>
      ["success", "entity", "total_columns", "columns", "categorized", "analysis"]

/-- `ColumnAnalyzerTool._run`.  An empty `column_filter` string is falsy in
Python, hence applies no filter. -/
def ColumnAnalyzerTool.run (entity_name : String) (column_filter : Option String)
    (include_system_columns : Bool) : ColumnAnalyzerResult :=
  match CREATIO_SCHEMA_KNOWLEDGE.find? (fun p => lowerS p.1 == lowerS entity_name) with
  | none => ColumnAnalyzerResult.failure ("Entity " ++ entity_name ++ " not found")
  | some (entity_key, info) =>
      let columns := info.key_columns
      let columns :=
        if include_system_columns then columns
        else columns.filter (fun c => !(systemColumns.contains c.name))
      let columns :=
        match column_filter with
        | some f =>
            if f == "" then columns
            else columns.filter (fun c => containsSub (lowerS c.name) (lowerS f))
        | none => columns
      let categorized := categorize columns
      ColumnAnalyzerResult.ok entity_key columns.length columns categorized
        (decide (categorized.primary_key.length > 0))
        categorized.foreign_keys.length
        (decide (categorized.foreign_keys.length > 3))

/-- `list(CRM_KPI_LIBRARY.keys())`. -/
def kpiCategories : List String := CRM_KPI_LIBRARY.map (fun p => p.1)

/-- `MetricCalculatorTool._get_date_filter`: SQL date filter for a time
period, defaulting to the `last_month` filter for unknown periods. -/
def MetricCalculatorTool.getDateFilter (time_period : String) : String :=
  let filters : List (String × String) := [
    ("today", "CAST(CreatedOn AS DATE) = CAST(GETDATE() AS DATE)"),
    ("last_week", "CreatedOn >= DATEADD(WEEK, -1, GETDATE())"),
    ("last_month", "CreatedOn >= DATEADD(MONTH, -1, GETDATE())"),
    ("last_quarter", "CreatedOn >= DATEADD(QUARTER, -1, GETDATE())"),
    ("ytd", "YEAR(CreatedOn) = YEAR(GETDATE())"),
    ("last_year", "CreatedOn >= DATEADD(YEAR, -1, GETDATE())")]
  match filters.find? (fun p => p.1 == time_period) with
  | some p => p.2
  | none => "CreatedOn >= DATEADD(MONTH, -1, GETDATE())"

/-- `MetricCalculatorTool._generate_calculation_query`.  The source's
early-return chain becomes a guard chain; `group_by` is accepted and
ignored exactly as in the source. -/
def MetricCalculatorTool.genQuery (kpi : KpiRecord) (time_period : String)
    (_group_by : Option String) : String :=
  let primary_entity := (kpiGetL kpi "entities").headD ""
  let date_filter := MetricCalculatorTool.getDateFilter time_period
  let unit := kpiGetS kpi "unit"
  let nameL := lowerS (kpiGetS kpi "name")
  let nameNoSpace := pyReplace1 (kpiGetS kpi "name") ' ' ""
  if unit == "percentage" && containsSub nameL "rate" && containsSub nameL "win" then
    "\nSELECT \n    CAST(SUM(CASE WHEN s.Name = \x27Closed won\x27 THEN 1 ELSE 0 END) AS FLOAT) /\n    NULLIF(COUNT(*), 0) * 100 AS WinRate\nFROM [Opportunity] o\nJOIN [OpportunityStage] s ON o.StageId = s.Id\nWHERE s.IsFinal = 1\n    AND " ++ date_filter ++ "\n"
  else if unit == "percentage" && containsSub nameL "rate" && containsSub nameL "conversion" then
    "\nSELECT \n    CAST(SUM(CASE WHEN QualifiedContactId IS NOT NULL THEN 1 ELSE 0 END) AS FLOAT) /\n    NULLIF(COUNT(*), 0) * 100 AS ConversionRate\nFROM [Lead]\nWHERE " ++ date_filter ++ "\n"
  else if unit == "currency" && containsSub nameL "pipeline" then
    "\nSELECT SUM(o.Amount) AS PipelineValue\nFROM [Opportunity] o\nJOIN [OpportunityStage] s ON o.StageId = s.Id\nWHERE s.IsFinal = 0\n"
  else if unit == "currency" && containsSub nameL "average" then
    "\nSELECT AVG(o.Amount) AS AverageDealSize\nFROM [Opportunity] o\nJOIN [OpportunityStage] s ON o.StageId = s.Id\nWHERE s.Name = \x27Closed won\x27\n    AND " ++ date_filter ++ "\n"
  else if unit == "days" || unit == "hours" then
    "\nSELECT AVG(DATEDIFF(" ++ String.mk unit.data.dropLast ++ ", CreatedOn, CloseDate)) AS " ++
      nameNoSpace ++ "\nFROM [" ++ primary_entity ++ "]\nWHERE " ++ date_filter ++ "\n"
  else
    "\nSELECT COUNT(*) AS " ++ nameNoSpace ++ "\nFROM [" ++ primary_entity ++ "]\nWHERE " ++
      date_filter ++ "\n"

/-- Result dictionary of `MetricCalculatorTool._run`: `failureCats` is the
`success: False` shape with `available_categories` (bad format or unknown
category), `failureMetrics` the one with `available_metrics`, `ok` the
`success: True` shape with the `metric`/`calculation` sub-dictionaries
flattened into fields. -/
inductive MetricCalcResult where
  | failureCats (error : String) (available_categories : List String)
  | failureMetrics (error : String) (available_metrics : List String)
  | ok (metric_id name description unit : String)
      (formula sql_query time_period date_filter : String)
      (group_by : Option String)
      (entities_required : List String) (notes : List String)
deriving DecidableEq

/-- `success` field of a `MetricCalculatorTool._run` result. -/
def MetricCalcResult.isSuccess : MetricCalcResult → Bool
  | MetricCalcResult.ok _ _ _ _ _ _ _ _ _ _ _ => true
  | _ => false

/-- `MetricCalculatorTool._run`.  Category and metric lookups are the
source's exact (case-sensitive) dictionary membership tests. -/
def MetricCalculatorTool.run (metric_id : String) (time_period : String)
    (group_by : Option String) : MetricCalcResult :=
  match pySplit metric_id '.' with
  | [category, metric_name] =>
      match CRM_KPI_LIBRARY.find? (fun p => p.1 == category) with
      | none =>
          MetricCalcResult.failureCats ("Unknown category: " ++ category) kpiCategories
      | some (_, metrics) =>
          match metrics.find? (fun p => p.1 == metric_name) with
          | none =>
              MetricCalcResult.failureMetrics ("Unknown metric: " ++ metric_name)
                (metrics.map (fun p => p.1))
          | some (_, kpi) =>
              MetricCalcResult.ok metric_id (kpiGetS kpi "name")
                (kpiGetS kpi "description") (kpiGetS kpi "unit")
                (kpiGetS kpi "formula")
                (MetricCalculatorTool.genQuery kpi time_period group_by)
                time_period (MetricCalculatorTool.getDateFilter time_period) group_by
                (kpiGetL kpi "entities")
                ["Recommended calculation frequency: " ++ kpiGetS kpi "frequency",
                 "Ensure appropriate indexes exist for date columns",
                 "Consider caching results for dashboard performance"]
  | _ =>
      MetricCalcResult.failureCats
        "Invalid metric_id format. Use category.metric_name (e.g., sales.win_rate)"
        kpiCategories

/-- One entry of the `kpis` list built by `KPILibraryTool._run`. -/
structure KpiListing where
  id : String
  category : String
  name : String
  description : String
  unit : String
  frequency : String
deriving DecidableEq

/-- Result dictionary of `KPILibraryTool._run` (always `success: True`). -/
structure KPILibraryResult where
  category_filter : Option String
  search_term_filter : Option String
  kpis : List KpiListing
  total_kpis_found : Nat
  categories_searched : List String
  available_categories : List String
deriving DecidableEq

/-- `KPILibraryTool._run`.  An empty string for `category` or
`search_term` is falsy in Python; an unknown category is skipped by
`continue`, leaving `success: True` with an empty `kpis` list. -/
def KPILibraryTool.run (category : Option String) (search_term : Option String) :
    KPILibraryResult :=
  let categories_to_search : List String :=
    match category with
    | some c => if c == "" then kpiCategories else [c]
    | none => kpiCategories
  let kpis := categories_to_search.flatMap (fun cat =>
    match CRM_KPI_LIBRARY.find? (fun p => p.1 == cat) with
    | none => []
    | some (_, metrics) =>
        metrics.filterMap (fun q =>
          let kpi_id := q.1
          let kpi_info := q.2
          let keep :=
            match search_term with
            | some t =>
                if t == "" then true
                else
                  containsSub (lowerS (kpiGetS kpi_info "name")) (lowerS t) ||
                  containsSub (lowerS (kpiGetS kpi_info "description")) (lowerS t)
            | none => true
          if keep then
            some { id := cat ++ "." ++ kpi_id, category := cat,
                   name := kpiGetS kpi_info "name",
                   description := kpiGetS kpi_info "description",
                   unit := kpiGetS kpi_info "unit",
                   frequency := kpiGetS kpi_info "frequency" }
          else none))
  { category_filter := category, search_term_filter := search_term,
    kpis := kpis, total_kpis_found := kpis.length,
    categories_searched := categories_to_search,
    available_categories := kpiCategories }

/-- `aliases` in `SQLQueryBuilderTool._build_from`. -/
def sqlAliases : List (String × String) :=
  [("Contact", "c"), ("Account", "a"), ("Opportunity", "o"), ("Lead", "l"),
   ("Activity", "act"), ("Case", "cs"), ("Product", "p"), ("Order", "ord")]

/-- `aliases.get(e, e[0].lower())`: Python evaluates the default argument
`e[0].lower()` before the lookup, so an empty entity name raises
IndexError (`none`) even though `dict.get` itself never fails. -/
def aliasFor (e : String) : Option String :=
  match e.data.head? with
  | none => none
  | some c0 =>
      some (match sqlAliases.find? (fun p => p.1 == e) with
            | some p => p.2
            | none => toString (Char.toLower c0))

/-- `join_templates` in `SQLQueryBuilderTool._build_from`. -/
def sqlJoinTemplates : List ((String × String) × String) := [
  (("Contact", "Account"), "LEFT JOIN [Account] a ON c.AccountId = a.Id"),
  (("Account", "Contact"), "LEFT JOIN [Contact] c ON c.AccountId = a.Id"),
  (("Opportunity", "Account"), "LEFT JOIN [Account] a ON o.AccountId = a.Id"),
  (("Activity", "Contact"), "LEFT JOIN [Contact] c ON act.ContactId = c.Id"),
  (("Activity", "Account"), "LEFT JOIN [Account] a ON act.AccountId = a.Id"),
  (("Case", "Contact"), "LEFT JOIN [Contact] c ON cs.ContactId = c.Id"),
  (("Case", "Account"), "LEFT JOIN [Account] a ON cs.AccountId = a.Id"),
  (("Lead", "Contact"), "LEFT JOIN [Contact] c ON l.QualifiedContactId = c.Id")]

/-- `SQLQueryBuilderTool._build_select`.  `none` models the IndexError
raised by `primary[0]` inside the eagerly evaluated default of
`default_cols.get` when the primary entity name is empty; the aggregation
branch returns before that expression is reached. -/
def SQLQueryBuilderTool.buildSelect (primary : String) (_entities : List String)
    (aggregations : Option String) : Option String :=
  let aggPart : Option String :=
    match aggregations with
    | some a =>
        if a == "" then none
        else
          let agg_funcs : List (String × String) := [
            ("count", "COUNT(" ++ primary ++ ".Id) AS RecordCount"),
            ("sum", "SUM(" ++ primary ++ ".Amount) AS TotalAmount"),
            ("avg", "AVG(" ++ primary ++ ".Amount) AS AvgAmount")]
          let agg_lower := lowerS a
          let agg_cols := (agg_funcs.filter (fun p => containsSub agg_lower p.1)).map (fun p => p.2)
          if agg_cols.isEmpty then none
          else some ("SELECT\n    " ++ String.intercalate ", " agg_cols)
    | none => none
  match aggPart with
  | some s => some s
  | none =>
      match primary.data.head? with
      | none => none
      | some c0 =>
          let fallback := [toString (Char.toLower c0) ++ ".Id",
                           toString (Char.toLower c0) ++ ".Name"]
          let default_cols : List (String × List String) := [
            ("Contact", ["c.Id", "c.Name", "c.Email", "c.Phone", "c.AccountId"]),
            ("Account", ["a.Id", "a.Name", "a.Phone", "a.Web", "a.IndustryId"]),
            ("Opportunity", ["o.Id", "o.Title", "o.Amount", "o.StageId", "o.CloseDate"]),
            ("Lead", ["l.Id", "l.LeadName", "l.Email", "l.QualifyStatusId"]),
            ("Activity", ["act.Id", "act.Title", "act.TypeId", "act.StartDate"]),
            ("Case", ["cs.Id", "cs.Number", "cs.Subject", "cs.StatusId"])]
          let cols :=
            match default_cols.find? (fun p => p.1 == primary) with
            | some p => p.2
            | none => fallback
          some ("SELECT\n    " ++ String.intercalate ",\n    " cols)

/-- `SQLQueryBuilderTool._build_from`; `none` again models the IndexError
from an empty entity name in an `aliases.get` default. -/
def SQLQueryBuilderTool.buildFrom (entities : List String) : Option String :=
  let primary := entities.headD ""
  match aliasFor primary with
  | none => none
  | some alias0 =>
      (entities.drop 1).foldlM (fun acc entity =>
          match sqlJoinTemplates.find? (fun p => p.1 == (primary, entity)) with
          | some p => some (acc ++ "\n" ++ p.2)
          | none =>
              match sqlJoinTemplates.find? (fun p => p.1 == (entity, primary)) with
              | some p => some (acc ++ "\n" ++ p.2)
              | none =>
                  match aliasFor entity with
                  | none => none
                  | some _ =>
                      some (acc ++ "\n-- Add JOIN for [" ++ entity ++
                        "] based on your relationship"))
        ("FROM [" ++ primary ++ "] " ++ alias0)

/-- `SQLQueryBuilderTool._build_where`. -/
def SQLQueryBuilderTool.buildWhere (filters : String) : String :=
  let fl := lowerS filters
  let conditions :=
    (if containsSub fl "this month" then
      ["CreatedOn >= DATEADD(MONTH, DATEDIFF(MONTH, 0, GETDATE()), 0)"] else []) ++
    (if containsSub fl "this quarter" then
      ["CreatedOn >= DATEADD(QUARTER, DATEDIFF(QUARTER, 0, GETDATE()), 0)"] else []) ++
    (if containsSub fl "this year" then ["YEAR(CreatedOn) = YEAR(GETDATE())"] else []) ++
    (if containsSub fl "active" then ["IsActive = 1"] else []) ++
    (if containsSub fl "closed" then
      ["StatusId IN (SELECT Id FROM [OpportunityStatus] WHERE IsFinal = 1)"] else []) ++
    (if containsSub fl "won" then
      ["StageId = (SELECT Id FROM [OpportunityStage] WHERE Name = \x27Closed won\x27)"] else [])
  if !conditions.isEmpty then "WHERE\n    " ++ String.intercalate "\n    AND " conditions
  else "WHERE -- Add conditions based on: " ++ filters

/-- `SQLQueryBuilderTool._build_group`. -/
def SQLQueryBuilderTool.buildGroup (grouping : String) : String := "GROUP BY " ++ grouping

/-- `SQLQueryBuilderTool._build_order`. -/
def SQLQueryBuilderTool.buildOrder (ordering : String) : String :=
  if containsSub (lowerS ordering) "newest" || containsSub (lowerS ordering) "recent" then
    "ORDER BY CreatedOn DESC"
  else if containsSub (lowerS ordering) "oldest" then "ORDER BY CreatedOn ASC"
  else if containsSub (lowerS ordering) "amount" then "ORDER BY Amount DESC"
  else "ORDER BY " ++ ordering

/-- `SQLQueryBuilderTool._explain_query`. -/
def SQLQueryBuilderTool.explainQuery (primary : String) (entities : List String)
    (filters aggregations : Option String) : String :=
  "This query retrieves data from " ++ primary ++
  (if entities.length > 1 then
    " joined with " ++ String.intercalate ", " (entities.drop 1) else "") ++
  (match filters with
   | some f => if f != "" then " filtered by: " ++ f else ""
   | none => "") ++
  (match aggregations with
   | some a => if a != "" then " with aggregations: " ++ a else ""
   | none => "")

/-- Result dictionary of `SQLQueryBuilderTool._run` (`success: True`). -/
structure SQLResult where
  objective : String
  query : String
  entities_used : List String
  query_type : String
  has_aggregation : Bool
  has_grouping : Bool
  explanation : String
  performance_notes : List String
deriving DecidableEq

/-- `SQLQueryBuilderTool._run`.  The result is `none` exactly when the
Python method raises IndexError (empty entity name reaching an eagerly
evaluated `[0]` in a `dict.get` default); truthiness of the optional
clause arguments is modelled as in Python (an empty string is falsy). -/
def SQLQueryBuilderTool.run (objective entities : String)
    (filters aggregations grouping ordering : Option String) : Option SQLResult :=
  let entity_list := (pySplit entities ',').map pyStrip
  let primary_entity := entity_list.headD ""
  match SQLQueryBuilderTool.buildSelect primary_entity entity_list aggregations with
  | none => none
  | some select_clause =>
      match SQLQueryBuilderTool.buildFrom entity_list with
      | none => none
      | some from_clause =>
          let where_clause :=
            match filters with
            | some f => if f == "" then "" else SQLQueryBuilderTool.buildWhere f
            | none => ""
          let group_clause :=
            match grouping with
            | some g => if g == "" then "" else SQLQueryBuilderTool.buildGroup g
            | none => ""
          let order_clause :=
            match ordering with
            | some o => if o == "" then "" else SQLQueryBuilderTool.buildOrder o
            | none => ""
          let query_parts := [select_clause, from_clause] ++
            (if where_clause != "" then [where_clause] else []) ++
            (if group_clause != "" then [group_clause] else []) ++
            (if order_clause != "" then [order_clause] else [])
          some
            { objective := objective
              query := String.intercalate "\n" query_parts ++ ";"
              entities_used := entity_list
              query_type := "SELECT"
              has_aggregation := aggregations.isSome
              has_grouping := grouping.isSome
              explanation := SQLQueryBuilderTool.explainQuery primary_entity entity_list
                filters aggregations
              performance_notes :=
                ["Consider adding indexes on filter columns",
                 "Use date range filters to limit result set",
                 "Add TOP clause for testing with large datasets"] }

/-- A relationship line emitted by `ERDGeneratorTool._generate_mermaid` /
`_generate_plantuml` (source entity, target entity, relationship type);
both methods run the identical dedup loop and differ only in how the line
is rendered. -/
structure ErdEdge where
  src : String
  tgt : String
  kind : String
deriving DecidableEq

/-- `tuple(sorted([entity, target]))`. -/
def sortedPair (a b : String) : String × String := if a ≤ b then (a, b) else (b, a)

/-- The four relationship types with a rendering branch; any other type
(e.g. `self-referencing`) still marks the pair as added but emits no line. -/
def erdRelKinds : List String := ["one-to-many", "many-to-one", "many-to-many", "one-to-one"]

/-- The flattened relationship loop of the two ERD generators, threading
the `added_rels` set: skip targets outside the entity list, skip pairs
already added, otherwise mark the unordered pair and emit a line when the
type is one of the four rendered kinds. -/
def erdEdgeFold (entities : List String) :
    List (String × Relationship) → List (String × String) → List ErdEdge
  | [], _ => []
  | (ent, r) :: rest, added =>
      if entities.contains r.entity then
        if added.contains (sortedPair ent r.entity) then erdEdgeFold entities rest added
        else
          (if erdRelKinds.contains r.type then [⟨ent, r.entity, r.type⟩] else []) ++
          erdEdgeFold entities rest (sortedPair ent r.entity :: added)
      else erdEdgeFold entities rest added

/-- The relationship lines (as edges) produced for an entity list by both
ERD generators. -/
def ERDGeneratorTool.relEdges (entities : List String) : List ErdEdge :=
  erdEdgeFold entities
    (entities.flatMap (fun ent =>
      (match findEntityExact ent with
       | some info => info.relationships
       | none => []).map (fun r => (ent, r))))
    []

/-- Mermaid rendering of one relationship line. -/
def ErdEdge.mermaidLine (e : ErdEdge) : String :=
  if e.kind == "one-to-many" then "    " ++ e.src ++ " ||--o\x7b " ++ e.tgt ++ " : has"
  else if e.kind == "many-to-one" then "    " ++ e.src ++ " \x7do--|| " ++ e.tgt ++ " : belongs_to"
  else if e.kind == "many-to-many" then "    " ++ e.src ++ " \x7do--o\x7b " ++ e.tgt ++ " : relates"
  else "    " ++ e.src ++ " ||--|| " ++ e.tgt ++ " : is"

/-- PlantUML rendering of one relationship line. -/
def ErdEdge.plantumlLine (e : ErdEdge) : String :=
  if e.kind == "one-to-many" then e.src ++ " ||--o\x7b " ++ e.tgt
  else if e.kind == "many-to-one" then e.src ++ " \x7do--|| " ++ e.tgt
  else if e.kind == "many-to-many" then e.src ++ " \x7do--o\x7b " ++ e.tgt
  else e.src ++ " ||--|| " ++ e.tgt

/-- `ERDGeneratorTool._generate_mermaid`. -/
def ERDGeneratorTool.generateMermaid (entities : List String) (show_columns : Bool) : String :=
  let entityLines := entities.flatMap (fun entity =>
    match findEntityExact entity with
    | none => []
    | some info =>
        if show_columns then
          ["    " ++ entity ++ " \x7b"] ++
          (info.key_columns.take 8).map (fun col =>
            let col_type := pyReplace1 (pyReplace1 (pyReplace1 col.type '(' "_") ')' "") ',' ""
            let pk := if col.name == "Id" then "PK" else ""
            let fk := if strEndsWith col.name "Id" && col.name != "Id" then "FK" else ""
            let marker := if pk != "" then pk else fk
            "        " ++ col_type ++ " " ++ col.name ++ " " ++ marker) ++
          ["    \x7d"]
        else ["    " ++ entity])
  String.intercalate "\n"
    (["erDiagram"] ++ entityLines ++
      (ERDGeneratorTool.relEdges entities).map ErdEdge.mermaidLine)

/-- `ERDGeneratorTool._generate_plantuml`. -/
def ERDGeneratorTool.generatePlantuml (entities : List String) (show_columns : Bool) : String :=
  let entityLines := entities.flatMap (fun entity =>
    match findEntityExact entity with
    | none => []
    | some info =>
        if show_columns then
          ["entity " ++ entity ++ " \x7b", "    * Id : uniqueidentifier <<PK>>"] ++
          ((info.key_columns.drop 1).take 5).map (fun col =>
            let fk := if strEndsWith col.name "Id" then " <<FK>>" else ""
            "    " ++ col.name ++ " : " ++ col.type ++ fk) ++
          ["\x7d"]
        else ["entity " ++ entity])
  String.intercalate "\n"
    (["@startuml", "skinparam linetype ortho", ""] ++ entityLines ++ [""] ++
      (ERDGeneratorTool.relEdges entities).map ErdEdge.plantumlLine ++ ["", "@enduml"])

/-- One entity match of `SchemaSearchTool._run`. -/
structure EntityMatch where
  entity : String
  description : String
  table : String
deriving DecidableEq

/-- One column match of `SchemaSearchTool._run`. -/
structure ColumnMatch where
  entity : String
  column : String
  type : String
  description : String
deriving DecidableEq

/-- One relationship match of `SchemaSearchTool._run`. -/
structure RelMatch where
  from_entity : String
  to_entity : String
  type : String
deriving DecidableEq

/-- Result dictionary of `SchemaSearchTool._run` (always `success: True`). -/
structure SchemaSearchResult where
  search_term : String
  scope : String
  entity_matches : List EntityMatch
  column_matches : List ColumnMatch
  relationship_matches : List RelMatch
  total_matches : Nat
  entities_found : Nat
  columns_found : Nat
  relationships_found : Nat
deriving DecidableEq

/-- `SchemaSearchTool._run`. -/
def SchemaSearchTool.run (search_term : String) (search_scope : String) : SchemaSearchResult :=
  let term := lowerS search_term
  let scopeEnt := search_scope == "all" || search_scope == "entities"
  let scopeCol := search_scope == "all" || search_scope == "columns"
  let scopeRel := search_scope == "all" || search_scope == "relationships"
  let entity_matches :=
    if scopeEnt then
      CREATIO_SCHEMA_KNOWLEDGE.filterMap (fun p =>
        if containsSub (lowerS p.1) term || containsSub (lowerS p.2.description) term then
          some { entity := p.1, description := p.2.description, table := p.2.table_name }
        else none)
    else []
  let column_matches :=
    if scopeCol then
      CREATIO_SCHEMA_KNOWLEDGE.flatMap (fun p =>
        p.2.key_columns.filterMap (fun col =>
          if containsSub (lowerS col.name) term || containsSub (lowerS col.description) term then
            some { entity := p.1, column := col.name, type := col.type,
                   description := col.description }
          else none))
    else []
  let relationship_matches :=
    if scopeRel then
      CREATIO_SCHEMA_KNOWLEDGE.flatMap (fun p =>
        p.2.relationships.filterMap (fun rel =>
          if containsSub (lowerS rel.entity) term || containsSub (lowerS rel.type) term then
            some { from_entity := p.1, to_entity := rel.entity, type := rel.type }
          else none))
    else []
  { search_term := search_term, scope := search_scope,
    entity_matches := entity_matches, column_matches := column_matches,
    relationship_matches := relationship_matches,
    total_matches := entity_matches.length + column_matches.length +
      relationship_matches.length,
    entities_found := entity_matches.length,
    columns_found := column_matches.length,
    relationships_found := relationship_matches.length }

/-- The three agents `CreatioCRMCrew.ask_question` can route to. -/
inductive CrewAgent where
  | schemaAnalyst
  | queryBuilder
  | metricsExpert
deriving DecidableEq

/-- The first keyword list of `ask_question`. -/
def schemaKeywords : List String :=
  ["schema", "table", "column", "entity", "relationship", "structure"]

/-- The second keyword list of `ask_question`. -/
def queryKeywords : List String := ["query", "sql", "odata", "select", "join", "extract"]

/-- The third keyword list of `ask_question`. -/
def metricsKeywords : List String :=
  ["kpi", "metric", "measure", "dashboard", "report", "analytics"]

/-- `any(word in question_lower for word in kws)`. -/
def hasAnyKeyword (question : String) (kws : List String) : Bool :=
  kws.any (fun w => containsSub (lowerS question) w)

/-- The agent-selection logic of `CreatioCRMCrew.ask_question` (the crew
construction and `kickoff()` around it are delegated to the external
framework and carry no further logic). -/
def CreatioCRMCrew.askQuestionRoute (question : String) : CrewAgent :=
  if hasAnyKeyword question schemaKeywords then CrewAgent.schemaAnalyst
  else if hasAnyKeyword question queryKeywords then CrewAgent.queryBuilder
  else if hasAnyKeyword question metricsKeywords then CrewAgent.metricsExpert
  else CrewAgent.schemaAnalyst

/-- Result dictionary of `TicketCreatorTool._run` (`success: True`;
`description` is accepted but not echoed in the result). -/
structure TicketResult where
  ticket_id : String
  title : String
  type : String
  priority : String
  labels : List String
  status : String
  message : String
deriving DecidableEq

/-- `TicketCreatorTool._run`.  The fresh random draw
`uuid.uuid4().hex` is made an explicit argument `uuidHex`; the source
takes its first 8 hex digits uppercased as the ticket id. -/
def TicketCreatorTool.run (title _description ticket_type priority labels : String)
    (uuidHex : String) : TicketResult :=
  let ticket_id := "TICKET-" ++ upperS (String.mk (uuidHex.data.take 8))
  let label_list := ((pySplit labels ',').map pyStrip).filter (fun l => l != "")
  { ticket_id := ticket_id, title := title, type := ticket_type, priority := priority,
    labels := label_list, status := "open",
    message := "Successfully created " ++ ticket_type ++ " ticket: " ++ ticket_id }

/-- The environment/settings state read by `get_settings()` in
`CreatioCRMCrew.__init__`: an association list of environment variables.
None of the tool `_run` bodies reads it, which the wrappers below make
explicit by taking it as an argument. -/
def EnvSettings := List (String × String)

/-- `SchemaExplorerTool._run` as executed in a process whose environment
is `env` (the body performs no environment access). -/
def SchemaExplorerTool.runEnv (_env : EnvSettings) (entity_name : String)
    (include_relationships : Bool) : SchemaExplorerResult :=
  SchemaExplorerTool.run entity_name include_relationships

/-- `EntityRelationshipTool._run` in environment `env`. -/
def EntityRelationshipTool.runEnv (_env : EnvSettings) (source_entity : String)
    (target_entity : Option String) (relationship_depth : Int) : EntityRelResult :=
  EntityRelationshipTool.run source_entity target_entity relationship_depth

/-- `ColumnAnalyzerTool._run` in environment `env`. -/
def ColumnAnalyzerTool.runEnv (_env : EnvSettings) (entity_name : String)
    (column_filter : Option String) (include_system_columns : Bool) : ColumnAnalyzerResult :=
  ColumnAnalyzerTool.run entity_name column_filter include_system_columns

/-- `SchemaSearchTool._run` in environment `env`. -/
def SchemaSearchTool.runEnv (_env : EnvSettings) (search_term : String)
    (search_scope : String) : SchemaSearchResult :=
  SchemaSearchTool.run search_term search_scope

/-- `MetricCalculatorTool._run` in environment `env`. -/
def MetricCalculatorTool.runEnv (_env : EnvSettings) (metric_id : String)
    (time_period : String) (group_by : Option String) : MetricCalcResult :=
  MetricCalculatorTool.run metric_id time_period group_by

/-- `KPILibraryTool._run` in environment `env`. -/
def KPILibraryTool.runEnv (_env : EnvSettings) (category : Option String)
    (search_term : Option String) : KPILibraryResult :=
  KPILibraryTool.run category search_term

/-- `SQLQueryBuilderTool._run` in environment `env`. -/
def SQLQueryBuilderTool.runEnv (_env : EnvSettings) (objective entities : String)
    (filters aggregations grouping ordering : Option String) : Option SQLResult :=
  SQLQueryBuilderTool.run objective entities filters aggregations grouping ordering

/-- `ERDGeneratorTool._generate_mermaid` in environment `env`. -/
def ERDGeneratorTool.generateMermaidEnv (_env : EnvSettings) (entities : List String)
    (show_columns : Bool) : String :=
  ERDGeneratorTool.generateMermaid entities show_columns

/-- `record.keys()` of a KPI record. -/
def KpiRecord.keys (r : KpiRecord) : List String := r.map (fun p => p.1)

/-- All `(category, metric_id, record)` triples of `CRM_KPI_LIBRARY`. -/
def kpiEntries : List (String × String × KpiRecord) :=
  CRM_KPI_LIBRARY.flatMap (fun p => p.2.map (fun q => (p.1, q.1, q.2)))

/-- The `success: True` result `MetricCalculatorTool._run` builds for a
stored `(category, metric_id, record)` triple queried with the default
`last_month` period: every field is the stored record's field, unmodified. -/
def expectedMetricOk (e : String × String × KpiRecord) : MetricCalcResult :=
  MetricCalcResult.ok (e.1 ++ "." ++ e.2.1) (kpiGetS e.2.2 "name")
    (kpiGetS e.2.2 "description") (kpiGetS e.2.2 "unit") (kpiGetS e.2.2 "formula")
    (MetricCalculatorTool.genQuery e.2.2 "last_month" none) "last_month"
    (MetricCalculatorTool.getDateFilter "last_month") none (kpiGetL e.2.2 "entities")
    ["Recommended calculation frequency: " ++ kpiGetS e.2.2 "frequency",
     "Ensure appropriate indexes exist for date columns",
     "Consider caching results for dashboard performance"]

/-- The `success: True` result `KPILibraryTool._run` builds when filtering
by a stored category with no search term: one listing per stored metric,
each field copied from the stored record. -/
def expectedCategoryListing (p : String × List (String × KpiRecord)) : KPILibraryResult :=
  { category_filter := some p.1, search_term_filter := none,
    kpis := p.2.map (fun q =>
      { id := p.1 ++ "." ++ q.1, category := p.1, name := kpiGetS q.2 "name",
        description := kpiGetS q.2 "description", unit := kpiGetS q.2 "unit",
        frequency := kpiGetS q.2 "frequency" }),
    total_kpis_found := p.2.length, categories_searched := [p.1],
    available_categories := kpiCategories }

/-- Number of the five `categorized` lists of `ColumnAnalyzerTool._run`
that contain a given column. -/
def bucketCount (cat : Categorized) (c : Column) : Nat :=
  (if c ∈ cat.primary_key then 1 else 0) + (if c ∈ cat.foreign_keys then 1 else 0) +
  (if c ∈ cat.lookup_references then 1 else 0) + (if c ∈ cat.data_columns then 1 else 0) +
  (if c ∈ cat.datetime_columns then 1 else 0)

/-- The partition property of a `ColumnAnalyzerTool._run` result: the five
categorised lists cover each retained column exactly once and their
lengths sum to `total_columns`. -/
def ColumnAnalyzerResult.partitionOk : ColumnAnalyzerResult → Prop
  | ColumnAnalyzerResult.failure _ => True
  | ColumnAnalyzerResult.ok _ total cols cat _ _ _ =>
      cat.primary_key.length + cat.foreign_keys.length + cat.lookup_references.length +
        cat.data_columns.length + cat.datetime_columns.length = total ∧
      cols.all (fun c => bucketCount cat c == 1) = true

/-- Replace the echoed `time_period` field of a `success: True` metric
result, leaving everything else (including the SQL and the date filter)
unchanged. -/
def MetricCalcResult.withTimePeriod (tp : String) : MetricCalcResult → MetricCalcResult
  | MetricCalcResult.ok id n d u f q _ df gb er nts =>
      MetricCalcResult.ok id n d u f q tp df gb er nts
  | r => r

/-- The six time periods `MetricCalculatorTool._get_date_filter` knows. -/
def knownTimePeriods : List String :=
  ["today", "last_week", "last_month", "last_quarter", "ytd", "last_year"]

/-! ### Helper lemmas -/

theorem find?_key_exact {β : Type} {l : List (String × β)}
    (hnd : (l.map (fun p => p.1)).Nodup) {k : String} {v : β}
    (hmem : (k, v) ∈ l) : l.find? (fun p => p.1 == k) = some (k, v) := by
  induction l with
  | nil => cases hmem
  | cons a t ih =>
      have hnd' := List.nodup_cons.mp hnd
      rcases List.mem_cons.mp hmem with h | h
      · subst h
        simp [List.find?_cons]
      · have hk : k ∈ t.map (fun p => p.1) := List.mem_map.mpr ⟨(k, v), h, rfl⟩
        have hne : (a.1 == k) = false := by
          rw [beq_eq_false_iff_ne]
          intro he
          exact hnd'.1 (by simpa [he] using hk)
        simp only [List.find?_cons, hne]
        exact ih hnd'.2 h

theorem find?_key_lower {β : Type} {l : List (String × β)}
    (hnd : (l.map (fun p => lowerS p.1)).Nodup) {k : String} {v : β}
    (hmem : (k, v) ∈ l) {s : String} (hs : lowerS s = lowerS k) :
    l.find? (fun p => lowerS p.1 == lowerS s) = some (k, v) := by
  induction l with
  | nil => cases hmem
  | cons a t ih =>
      have hnd' := List.nodup_cons.mp hnd
      rcases List.mem_cons.mp hmem with h | h
      · subst h
        simp [List.find?_cons, hs]
      · have hk : lowerS k ∈ t.map (fun p => lowerS p.1) :=
          List.mem_map.mpr ⟨(k, v), h, rfl⟩
        have hne : (lowerS a.1 == lowerS s) = false := by
          rw [beq_eq_false_iff_ne]
          intro he
          exact hnd'.1 (by simpa [he, hs] using hk)
        simp only [List.find?_cons, hne]
        exact ih hnd'.2 h

theorem find?_key_none {β : Type} {l : List (String × β)} {k : String}
    (h : k ∉ l.map (fun p => p.1)) : l.find? (fun p => p.1 == k) = none := by
  rw [List.find?_eq_none]
  intro a ha
  simp only [beq_iff_eq]
  intro he
  exact h (List.mem_map.mpr ⟨a, ha, he⟩)

theorem toLower_ws {c : Char} (h : c.isWhitespace = true) :
    (Char.toLower c).isWhitespace = true := by
  have : c = ' ' ∨ c = '\t' ∨ c = '\r' ∨ c = '\n' := by
    simpa [Char.isWhitespace, or_assoc] using h
  rcases this with h | h | h | h <;> subst h <;> decide

theorem dropWhile_eq_self_of_none {l : List Char}
    (h : ∀ c ∈ l, c.isWhitespace = false) :
    l.dropWhile Char.isWhitespace = l := by
  cases l with
  | nil => rfl
  | cons a t =>
      rw [List.dropWhile_cons]
      simp [h a (List.mem_cons_self a t)]

theorem stripL_eq_self {l : List Char} (h : ∀ c ∈ l, c.isWhitespace = false) :
    stripL l = l := by
  unfold stripL
  rw [dropWhile_eq_self_of_none h,
      dropWhile_eq_self_of_none (fun c hc => h c (List.mem_reverse.mp hc)),
      List.reverse_reverse]

theorem pyStrip_of_caseEq {s k : String}
    (hk : ∀ c ∈ k.data, (Char.toLower c).isWhitespace = false)
    (h : s.data.map Char.toLower = k.data.map Char.toLower) : pyStrip s = s := by
  have hws : ∀ c ∈ s.data, c.isWhitespace = false := by
    intro c hc
    by_contra hw
    have hw' : c.isWhitespace = true := by
      cases hcw : c.isWhitespace with
      | false => exact absurd hcw hw
      | true => rfl
    have hmem : Char.toLower c ∈ k.data.map Char.toLower := by
      rw [← h]
      exact List.mem_map.mpr ⟨c, hc, rfl⟩
    obtain ⟨d, hd, hde⟩ := List.mem_map.mp hmem
    have := hk d hd
    rw [hde] at this
    rw [toLower_ws hw'] at this
    exact Bool.true_eq_false.mp this
  show String.mk (stripL s.data) = s
  rw [stripL_eq_self hws]

theorem lowerS_of_caseEq {s k : String}
    (h : s.data.map Char.toLower = k.data.map Char.toLower) : lowerS s = lowerS k := by
  unfold lowerS
  rw [h]

/-! ### C6 -/

/-- C6: the static knowledge tables keep their construction invariants:
entity keys and KPI category keys are unique strings, the metric ids
within each category are unique, and every metric record of
`CRM_KPI_LIBRARY` has unique keys that include `name`, `description`,
`formula`, `unit`, `frequency` and `entities`.  (No mutation is possible:
in this embedding, as in the source, the tables are module-level
constants and every tool is a pure function reading them.) -/
theorem knowledge_tables_invariants :
    schemaKeys.Nodup ∧ kpiCategories.Nodup ∧
    (CRM_KPI_LIBRARY.all (fun p =>
      decide ((p.2.map (fun q => q.1)).Nodup) &&
      p.2.all (fun q =>
        decide ((KpiRecord.keys q.2).Nodup) &&
        ["name", "description", "formula", "unit", "frequency", "entities"].all
          (fun key => (KpiRecord.keys q.2).contains key))) = true) := by
  refine ⟨by decide, by decide, by decide⟩

/-! ### C4 -/

/-- C4: `SQLQueryBuilderTool._run` is not total: an `entities` string
whose first comma-separated element is empty makes `primary[0]` raise
IndexError inside the eagerly evaluated default argument of
`default_cols.get` (and `aliases.get`), modelled here as `none`, while a
non-empty unknown entity name is handled without error. -/
theorem sqlQueryBuilder_empty_entities_crash :
    SQLQueryBuilderTool.run "List contact names" "" none none none none = none ∧
    SQLQueryBuilderTool.run "List contact names" "Contact," none none none none = none ∧
    (SQLQueryBuilderTool.run "List contact names" "UnknownEntity" none none none none).isSome
      = true := by
  refine ⟨by decide, by decide, by decide⟩

/-! ### C1 counterexample -/

/-- C1 fails on the code: metric lookups are case-sensitive.  The metric
id `Sales.win_rate` is equal up to letter case to the stored
`sales.win_rate`, yet `MetricCalculatorTool._run` returns `success: False`
for it while the exact id succeeds. -/
theorem metricCalculator_case_variant_not_found :
    (MetricCalculatorTool.run "Sales.win_rate" "last_month" none).isSuccess = false ∧
    (MetricCalculatorTool.run "sales.win_rate" "last_month" none).isSuccess = true ∧
    MetricCalculatorTool.run "Sales.win_rate" "last_month" none =
      MetricCalcResult.failureCats "Unknown category: Sales" kpiCategories := by
  refine ⟨by decide, by decide, by decide⟩

/-! ### C2 counterexample -/

/-- C2 fails on the code for `ColumnAnalyzerTool._run`: its not-found
result carries only `success` and `error` keys — no enumeration of the
valid entities. -/
theorem columnAnalyzer_error_lacks_options :
    ColumnAnalyzerTool.run "Invoice" none false =
      ColumnAnalyzerResult.failure "Entity Invoice not found" ∧
    ColumnAnalyzerResult.dictKeys (ColumnAnalyzerTool.run "Invoice" none false) =
      ["success", "error"] ∧
    "available_entities" ∉
      ColumnAnalyzerResult.dictKeys (ColumnAnalyzerTool.run "Invoice" none false) := by
  refine ⟨by decide, by decide, by decide⟩

/-! ### C3 -/

/-- C3 fails on the code: `TicketCreatorTool._run` draws a fresh
`uuid.uuid4()` on each call, so two calls with identical explicit
arguments can return different output strings. -/
theorem ticketCreator_output_varies_with_uuid :
    TicketCreatorTool.run "Fix login bug" "Crash on login page" "bug" "high" ""
        "aaaaaaaa11112222" ≠
      TicketCreatorTool.run "Fix login bug" "Crash on login page" "bug" "high" ""
        "bbbbbbbb33334444" := by
  decide

/-- C3 amended: `TicketCreatorTool._run` is a pure function of its
explicit arguments and the fresh uuid draw; every field other than
`ticket_id` and the `message` echoing it depends only on the explicit
arguments, and `ticket_id` is exactly `TICKET-` plus the first 8 hex
digits of the draw, uppercased. -/
theorem ticketCreator_deterministic_up_to_uuid
    (title description ticket_type priority labels u₁ u₂ : String) :
    (TicketCreatorTool.run title description ticket_type priority labels u₁).title =
      (TicketCreatorTool.run title description ticket_type priority labels u₂).title ∧
    (TicketCreatorTool.run title description ticket_type priority labels u₁).type =
      (TicketCreatorTool.run title description ticket_type priority labels u₂).type ∧
    (TicketCreatorTool.run title description ticket_type priority labels u₁).priority =
      (TicketCreatorTool.run title description ticket_type priority labels u₂).priority ∧
    (TicketCreatorTool.run title description ticket_type priority labels u₁).labels =
      (TicketCreatorTool.run title description ticket_type priority labels u₂).labels ∧
    (TicketCreatorTool.run title description ticket_type priority labels u₁).status =
      (TicketCreatorTool.run title description ticket_type priority labels u₂).status ∧
    (TicketCreatorTool.run title description ticket_type priority labels u₁).ticket_id =
      "TICKET-" ++ upperS (String.mk (u₁.data.take 8)) := by
  exact ⟨rfl, rfl, rfl, rfl, rfl, rfl⟩

/-! ### C7 -/

/-- C7: the environment-backed settings loaded in
`CreatioCRMCrew.__init__` never influence tool outputs: running any of
the embedded tool bodies in two different environments yields identical
results (none of the `_run` bodies under `creatio_crm_crew/tools` reads
the settings object or the process environment). -/
theorem tools_independent_of_settings (env₁ env₂ : EnvSettings) :
    (∀ e b, SchemaExplorerTool.runEnv env₁ e b = SchemaExplorerTool.runEnv env₂ e b) ∧
    (∀ s t d, EntityRelationshipTool.runEnv env₁ s t d =
      EntityRelationshipTool.runEnv env₂ s t d) ∧
    (∀ e f i, ColumnAnalyzerTool.runEnv env₁ e f i = ColumnAnalyzerTool.runEnv env₂ e f i) ∧
    (∀ t sc, SchemaSearchTool.runEnv env₁ t sc = SchemaSearchTool.runEnv env₂ t sc) ∧
    (∀ m tp g, MetricCalculatorTool.runEnv env₁ m tp g =
      MetricCalculatorTool.runEnv env₂ m tp g) ∧
    (∀ c st, KPILibraryTool.runEnv env₁ c st = KPILibraryTool.runEnv env₂ c st) ∧
    (∀ o e f a g ord, SQLQueryBuilderTool.runEnv env₁ o e f a g ord =
      SQLQueryBuilderTool.runEnv env₂ o e f a g ord) ∧
    (∀ es sc, ERDGeneratorTool.generateMermaidEnv env₁ es sc =
      ERDGeneratorTool.generateMermaidEnv env₂ es sc) := by
  exact ⟨fun _ _ => rfl, fun _ _ _ => rfl, fun _ _ _ => rfl, fun _ _ => rfl,
    fun _ _ _ => rfl, fun _ _ => rfl, fun _ _ _ _ _ _ => rfl, fun _ _ => rfl⟩

/-! ### C5 -/

/-- C5: `CreatioCRMCrew.ask_question` routes by contains-checks on the
lowercased question: any schema keyword routes to the schema analyst;
otherwise any query keyword routes to the query builder; otherwise any
metrics keyword routes to the metrics expert; otherwise the schema
analyst is the default — so schema keywords take precedence over query
keywords, which take precedence over metrics keywords. -/
theorem ask_question_routing_precedence (question : String) :
    (hasAnyKeyword question schemaKeywords = true →
      CreatioCRMCrew.askQuestionRoute question = CrewAgent.schemaAnalyst) ∧
    (hasAnyKeyword question schemaKeywords = false →
      hasAnyKeyword question queryKeywords = true →
      CreatioCRMCrew.askQuestionRoute question = CrewAgent.queryBuilder) ∧
    (hasAnyKeyword question schemaKeywords = false →
      hasAnyKeyword question queryKeywords = false →
      hasAnyKeyword question metricsKeywords = true →
      CreatioCRMCrew.askQuestionRoute question = CrewAgent.metricsExpert) ∧
    (hasAnyKeyword question schemaKeywords = false →
      hasAnyKeyword question queryKeywords = false →
      hasAnyKeyword question metricsKeywords = false →
      CreatioCRMCrew.askQuestionRoute question = CrewAgent.schemaAnalyst) := by
  refine ⟨fun h1 => ?_, fun h1 h2 => ?_, fun h1 h2 h3 => ?_, fun h1 h2 h3 => ?_⟩
  · simp [CreatioCRMCrew.askQuestionRoute, h1]
  · simp [CreatioCRMCrew.askQuestionRoute, h1, h2]
  · simp [CreatioCRMCrew.askQuestionRoute, h1, h2, h3]
  · simp [CreatioCRMCrew.askQuestionRoute, h1, h2, h3]

/-- Witness for C5 at concrete questions: a question with both `table`
(schema) and `sql` (query) keywords goes to the schema analyst; one with
only `sql` goes to the query builder; one with only `kpi` goes to the
metrics expert; one with none defaults to the schema analyst. -/
theorem ask_question_routing_precedence_witness :
    CreatioCRMCrew.askQuestionRoute "Which table does this sql read?" =
      CrewAgent.schemaAnalyst ∧
    CreatioCRMCrew.askQuestionRoute "Write sql for me" = CrewAgent.queryBuilder ∧
    CreatioCRMCrew.askQuestionRoute "Which kpi matters?" = CrewAgent.metricsExpert ∧
    CreatioCRMCrew.askQuestionRoute "Hello there" = CrewAgent.schemaAnalyst :=
  ⟨(ask_question_routing_precedence "Which table does this sql read?").1 (by decide),
   (ask_question_routing_precedence "Write sql for me").2.1 (by decide) (by decide),
   (ask_question_routing_precedence "Which kpi matters?").2.2.1 (by decide) (by decide)
     (by decide),
   (ask_question_routing_precedence "Hello there").2.2.2 (by decide) (by decide) (by decide)⟩

/-! ### C8 -/

theorem colBucket_lt (c : Column) : colBucket c < 5 := by
  unfold colBucket
  split
  · omega
  · split
    · split <;> omega
    · split <;> omega

theorem categorize_sum (cols : List Column) :
    (categorize cols).primary_key.length + (categorize cols).foreign_keys.length +
      (categorize cols).lookup_references.length + (categorize cols).data_columns.length +
      (categorize cols).datetime_columns.length = cols.length := by
  unfold categorize
  induction cols with
  | nil => simp
  | cons c cs ih =>
      have hb := colBucket_lt c
      simp only [List.filter_cons]
      rcases hv : colBucket c with _ | _ | _ | _ | _ | n
      · simp only [hv] at *
        simp at *
        omega
      · simp only [hv] at *
        simp at *
        omega
      · simp only [hv] at *
        simp at *
        omega
      · simp only [hv] at *
        simp at *
        omega
      · simp only [hv] at *
        simp at *
        omega
      · rw [hv] at hb
        omega

theorem bucketCount_categorize {cols : List Column} {c : Column} (hc : c ∈ cols) :
    bucketCount (categorize cols) c = 1 := by
  have hb := colBucket_lt c
  simp only [bucketCount, categorize, List.mem_filter, hc, true_and, beq_iff_eq]
  rcases hv : colBucket c with _ | _ | _ | _ | _ | n
  · simp [hv]
  · simp [hv]
  · simp [hv]
  · simp [hv]
  · simp [hv]
  · rw [hv] at hb
    omega

/-- C8: in `ColumnAnalyzerTool._run`, for every entity name, column
filter and system-columns flag, the five categorised lists partition the
retained columns: each retained column lies in exactly one of them, and
the five lengths sum to the reported `total_columns`. -/
theorem columnAnalyzer_partition (entity_name : String) (column_filter : Option String)
    (include_system_columns : Bool) :
    (ColumnAnalyzerTool.run entity_name column_filter include_system_columns).partitionOk := by
  unfold ColumnAnalyzerTool.run
  cases hf : CREATIO_SCHEMA_KNOWLEDGE.find? (fun p => lowerS p.1 == lowerS entity_name) with
  | none => exact trivial
  | some p =>
      refine ⟨categorize_sum _, ?_⟩
      rw [List.all_eq_true]
      intro c hc
      simpa using bucketCount_categorize hc

/-! ### C9 -/

theorem erdEdgeFold_mem {entities : List String} {l : List (String × Relationship)}
    {added : List (String × String)} {e : ErdEdge}
    (he : e ∈ erdEdgeFold entities l added) :
    e.tgt ∈ entities ∧ (∃ r, (e.src, r) ∈ l) ∧ sortedPair e.src e.tgt ∉ added := by
  induction l generalizing added with
  | nil => simp [erdEdgeFold] at he
  | cons p rest ih =>
      obtain ⟨ent, r⟩ := p
      simp only [erdEdgeFold] at he
      split at he
      · split at he
        · obtain ⟨ht, ⟨r', hr'⟩, hna⟩ := ih he
          exact ⟨ht, ⟨r', List.mem_cons_of_mem _ hr'⟩, hna⟩
        · rename_i hcont hadded
          rcases List.mem_append.mp he with hL | hR
          · split at hL
            · have heq : e = ⟨ent, r.entity, r.type⟩ := by simpa using hL
              subst heq
              refine ⟨?_, ⟨r, List.mem_cons_self _ _⟩, ?_⟩
              · simpa using hcont
              · simpa using hadded
            · simp at hL
          · obtain ⟨ht, ⟨r', hr'⟩, hna⟩ := ih hR
            refine ⟨ht, ⟨r', List.mem_cons_of_mem _ hr'⟩,
              fun hmem => hna (List.mem_cons_of_mem _ hmem)⟩
      · obtain ⟨ht, ⟨r', hr'⟩, hna⟩ := ih he
        exact ⟨ht, ⟨r', List.mem_cons_of_mem _ hr'⟩, hna⟩

theorem erdEdgeFold_key_nodup {entities : List String} (l : List (String × Relationship)) :
    ∀ added : List (String × String),
      ((erdEdgeFold entities l added).map (fun e => sortedPair e.src e.tgt)).Nodup := by
  induction l with
  | nil => intro added; simp [erdEdgeFold]
  | cons p rest ih =>
      intro added
      obtain ⟨ent, r⟩ := p
      simp only [erdEdgeFold]
      split
      · split
        · exact ih _
        · split
          · simp only [List.singleton_append, List.map_cons, List.nodup_cons]
            constructor
            · intro hmem
              obtain ⟨e', he', hkey⟩ := List.mem_map.mp hmem
              exact (erdEdgeFold_mem he').2.2 (hkey ▸ List.mem_cons_self _ _)
            · exact ih _
          · simpa using ih _
      · exact ih _

/-- C9: in the ERD generators, each unordered pair of entities
contributes at most one relationship line (the `sorted`-pair keys of the
emitted lines are pairwise distinct) and every emitted line relates two
entities of the requested list.  `relEdges` is exactly the relationship
line list that both `generateMermaid` and `generatePlantuml` render. -/
theorem erd_relationship_dedup (entities : List String) :
    ((ERDGeneratorTool.relEdges entities).map (fun e => sortedPair e.src e.tgt)).Nodup ∧
    ∀ e ∈ ERDGeneratorTool.relEdges entities, e.src ∈ entities ∧ e.tgt ∈ entities := by
  constructor
  · exact erdEdgeFold_key_nodup _ _
  · intro e he
    obtain ⟨htgt, ⟨r, hr⟩, _⟩ := erdEdgeFold_mem he
    obtain ⟨ent, hent, hpair⟩ := List.mem_flatMap.mp hr
    obtain ⟨r', _, hr'eq⟩ := List.mem_map.mp hpair
    have : ent = e.src := congrArg Prod.fst hr'eq
    exact ⟨this ▸ hent, htgt⟩

/-- Witness for C9 at a concrete entity list: the emitted keys are
distinct and the first emitted line relates two listed entities. -/
theorem erd_relationship_dedup_witness :
    ((ERDGeneratorTool.relEdges ["Contact", "Account", "Activity"]).map
      (fun e => sortedPair e.src e.tgt)).Nodup ∧
    ((ERDGeneratorTool.relEdges ["Contact", "Account", "Activity"]).headD
        ⟨"", "", ""⟩).src ∈ ["Contact", "Account", "Activity"] :=
  ⟨(erd_relationship_dedup ["Contact", "Account", "Activity"]).1,
   ((erd_relationship_dedup ["Contact", "Account", "Activity"]).2 _ (by decide)).1⟩

/-! ### C10 -/

theorem getDateFilter_unknown {tp : String} (h : tp ∉ knownTimePeriods) :
    MetricCalculatorTool.getDateFilter tp = MetricCalculatorTool.getDateFilter "last_month" := by
  simp only [knownTimePeriods, List.mem_cons, not_or] at h
  obtain ⟨h1, h2, h3, h4, h5, h6, -⟩ := h
  unfold MetricCalculatorTool.getDateFilter
  have e1 : (("today" : String) == tp) = false := by
    rw [beq_eq_false_iff_ne]; exact fun he => h1 he.symm
  have e2 : (("last_week" : String) == tp) = false := by
    rw [beq_eq_false_iff_ne]; exact fun he => h2 he.symm
  have e3 : (("last_month" : String) == tp) = false := by
    rw [beq_eq_false_iff_ne]; exact fun he => h3 he.symm
  have e4 : (("last_quarter" : String) == tp) = false := by
    rw [beq_eq_false_iff_ne]; exact fun he => h4 he.symm
  have e5 : (("ytd" : String) == tp) = false := by
    rw [beq_eq_false_iff_ne]; exact fun he => h5 he.symm
  have e6 : (("last_year" : String) == tp) = false := by
    rw [beq_eq_false_iff_ne]; exact fun he => h6 he.symm
  simp [List.find?, e1, e2, e3, e4, e5, e6]

theorem genQuery_unknown_period {tp : String} (h : tp ∉ knownTimePeriods)
    (kpi : KpiRecord) (gb : Option String) :
    MetricCalculatorTool.genQuery kpi tp gb =
      MetricCalculatorTool.genQuery kpi "last_month" gb := by
  unfold MetricCalculatorTool.genQuery
  rw [getDateFilter_unknown h]

/-- C10: `MetricCalculatorTool._run` never reports an error for an
unknown `time_period`: for any metric id and grouping, querying with a
period outside the six known ones returns exactly the result of querying
with `last_month` — same success flag, same SQL, same `date_filter` —
except that the unknown period string is echoed verbatim in the
`time_period` field. -/
theorem metricCalculator_unknown_period_defaults (metric_id tp : String)
    (group_by : Option String) (h : tp ∉ knownTimePeriods) :
    MetricCalculatorTool.run metric_id tp group_by =
      (MetricCalculatorTool.run metric_id "last_month" group_by).withTimePeriod tp := by
  unfold MetricCalculatorTool.run
  rcases pySplit metric_id '.' with _ | ⟨c, _ | ⟨m, _ | ⟨x, xs⟩⟩⟩
  case nil => rfl
  case cons.nil => rfl
  case cons.cons.cons => rfl
  case cons.cons.nil =>
    dsimp only
    cases hfind : CRM_KPI_LIBRARY.find? (fun p => p.1 == c) with
    | none => rfl
    | some p =>
        obtain ⟨cat, metrics⟩ := p
        dsimp only
        cases hfind2 : metrics.find? (fun q => q.1 == m) with
        | none => rfl
        | some q =>
            obtain ⟨mid, kpi⟩ := q
            dsimp only [MetricCalcResult.withTimePeriod]
            rw [genQuery_unknown_period h, getDateFilter_unknown h]

/-- Witness for C10: the unknown period `next_decade` on the stored
metric `sales.win_rate`. -/
theorem metricCalculator_unknown_period_defaults_witness :
    "next_decade" ∉ knownTimePeriods ∧
    MetricCalculatorTool.run "sales.win_rate" "next_decade" none =
      (MetricCalculatorTool.run "sales.win_rate" "last_month" none).withTimePeriod
        "next_decade" :=
  ⟨by decide,
   metricCalculator_unknown_period_defaults "sales.win_rate" "next_decade" none (by decide)⟩

/-! ### C1 -/

theorem schema_key_chars_nonws {k : String} {info : EntityInfo}
    (hmem : (k, info) ∈ CREATIO_SCHEMA_KNOWLEDGE) :
    ∀ c ∈ k.data, (Char.toLower c).isWhitespace = false := by
  have hall : CREATIO_SCHEMA_KNOWLEDGE.all
      (fun p => p.1.data.all (fun c => !(Char.toLower c).isWhitespace)) = true := by decide
  intro c hc
  have h1 := List.all_eq_true.mp hall _ hmem
  have h2 := List.all_eq_true.mp h1 _ hc
  simpa using h2

theorem schema_lower_keys_nodup :
    (CREATIO_SCHEMA_KNOWLEDGE.map (fun p => lowerS p.1)).Nodup := by decide

set_option maxRecDepth 100000 in
/-- C1 amended: the entity lookup of `SchemaExplorerTool._run` is
case-insensitive and returns the literal stored record; the metric and
category lookups of `MetricCalculatorTool._run` and `KPILibraryTool._run`
are case-sensitive exact matches — on the exactly spelled stored key they
return the literal stored record's fields, while a case variant is not
found (see the counterexample). -/
theorem lookups_literal_record_amended :
    (∀ k info, (k, info) ∈ CREATIO_SCHEMA_KNOWLEDGE → ∀ s b,
      s.data.map Char.toLower = k.data.map Char.toLower →
      SchemaExplorerTool.run s b =
        SchemaExplorerResult.ok k info.table_name info.description info.key_columns
          info.key_columns.length
          (if b then some (info.relationships, info.relationships.length) else none)) ∧
    (∀ e ∈ kpiEntries,
      MetricCalculatorTool.run (e.1 ++ "." ++ e.2.1) "last_month" none =
        expectedMetricOk e) ∧
    (∀ p ∈ CRM_KPI_LIBRARY, KPILibraryTool.run (some p.1) none =
      expectedCategoryListing p) := by
  refine ⟨?_, by decide, by decide⟩
  intro k info hmem s b hcase
  have hstrip : pyStrip s = s := pyStrip_of_caseEq (schema_key_chars_nonws hmem) hcase
  have hfind : findEntityCI s = some (k, info) :=
    find?_key_lower schema_lower_keys_nodup hmem (lowerS_of_caseEq hcase)
  unfold SchemaExplorerTool.run
  dsimp only
  rw [hstrip, hfind]

/-- Witness for C1 (amended) at concrete inputs: the case variant
`CONTACT` of the stored key `Contact` succeeds in the schema explorer
with the literal stored record, and the exactly spelled first stored
metric id succeeds in the metric calculator with the stored fields. -/
theorem lookups_literal_record_amended_witness :
    SchemaExplorerTool.run "CONTACT" true =
      SchemaExplorerResult.ok "Contact"
        ((CREATIO_SCHEMA_KNOWLEDGE.headD ("", ⟨"", "", [], []⟩)).2.table_name)
        ((CREATIO_SCHEMA_KNOWLEDGE.headD ("", ⟨"", "", [], []⟩)).2.description)
        ((CREATIO_SCHEMA_KNOWLEDGE.headD ("", ⟨"", "", [], []⟩)).2.key_columns)
        ((CREATIO_SCHEMA_KNOWLEDGE.headD ("", ⟨"", "", [], []⟩)).2.key_columns.length)
        (if true then
          some ((CREATIO_SCHEMA_KNOWLEDGE.headD ("", ⟨"", "", [], []⟩)).2.relationships,
            (CREATIO_SCHEMA_KNOWLEDGE.headD ("", ⟨"", "", [], []⟩)).2.relationships.length)
         else none) ∧
    MetricCalculatorTool.run
        ((kpiEntries.headD ("", "", [])).1 ++ "." ++ (kpiEntries.headD ("", "", [])).2.1)
        "last_month" none =
      expectedMetricOk (kpiEntries.headD ("", "", [])) :=
  ⟨lookups_literal_record_amended.1 "Contact" _ (by decide) "CONTACT" true (by decide),
   lookups_literal_record_amended.2.1 _ (by decide)⟩

/-! ### C2 -/

theorem kpi_category_keys_nodup : (CRM_KPI_LIBRARY.map (fun p => p.1)).Nodup := by decide

/-- C2 amended: for every unknown key, `SchemaExplorerTool._run`,
`EntityRelationshipTool._run` and `MetricCalculatorTool._run` return a
`success: False` structured result that includes the enumerated list of
valid keys/options; `ColumnAnalyzerTool._run` is the exception — its
not-found result carries only an error message (see the counterexample). -/
theorem unknown_key_error_lists_options_amended :
    (∀ s b, (∀ k ∈ schemaKeys, lowerS k ≠ lowerS (pyStrip s)) →
      SchemaExplorerTool.run s b =
        SchemaExplorerResult.failure
          ("Entity " ++ s ++ " not found in schema knowledge base") schemaKeys
          ("Try one of: " ++ String.intercalate ", " schemaKeys)) ∧
    (∀ s t d, (∀ k ∈ schemaKeys, lowerS k ≠ lowerS s) →
      EntityRelationshipTool.run s t d =
        EntityRelResult.failure ("Source entity " ++ s ++ " not found") schemaKeys) ∧
    (∀ id tp gb, (pySplit id '.').length ≠ 2 →
      MetricCalculatorTool.run id tp gb =
        MetricCalcResult.failureCats
          "Invalid metric_id format. Use category.metric_name (e.g., sales.win_rate)"
          kpiCategories) ∧
    (∀ id c m tp gb, pySplit id '.' = [c, m] → c ∉ kpiCategories →
      MetricCalculatorTool.run id tp gb =
        MetricCalcResult.failureCats ("Unknown category: " ++ c) kpiCategories) ∧
    (∀ id c m tp gb recs, pySplit id '.' = [c, m] → (c, recs) ∈ CRM_KPI_LIBRARY →
      m ∉ recs.map (fun q => q.1) →
      MetricCalculatorTool.run id tp gb =
        MetricCalcResult.failureMetrics ("Unknown metric: " ++ m)
          (recs.map (fun q => q.1))) := by
  refine ⟨?_, ?_, ?_, ?_, ?_⟩
  · intro s b hnone
    have hfind : findEntityCI (pyStrip s) = none := by
      unfold findEntityCI
      rw [List.find?_eq_none]
      intro p hp
      simp only [beq_iff_eq]
      exact fun he => hnone p.1 (List.mem_map.mpr ⟨p, hp, rfl⟩) he
    unfold SchemaExplorerTool.run
    dsimp only
    rw [hfind]
  · intro s t d hnone
    have hfind : CREATIO_SCHEMA_KNOWLEDGE.find? (fun p => lowerS p.1 == lowerS s) = none := by
      rw [List.find?_eq_none]
      intro p hp
      simp only [beq_iff_eq]
      exact fun he => hnone p.1 (List.mem_map.mpr ⟨p, hp, rfl⟩) he
    unfold EntityRelationshipTool.run
    rw [hfind]
  · intro id tp gb hlen
    unfold MetricCalculatorTool.run
    rcases hs : pySplit id '.' with _ | ⟨c, _ | ⟨m, _ | ⟨x, xs⟩⟩⟩
    · rfl
    · rfl
    · rw [hs] at hlen
      exact absurd rfl hlen
    · rfl
  · intro id c m tp gb hs hc
    unfold MetricCalculatorTool.run
    rw [hs]
    dsimp only
    rw [find?_key_none hc]
  · intro id c m tp gb recs hs hmem hnm
    unfold MetricCalculatorTool.run
    rw [hs]
    dsimp only
    rw [find?_key_exact kpi_category_keys_nodup hmem]
    dsimp only
    rw [find?_key_none hnm]

/-- Witness for C2 (amended) at concrete unknown keys: `Widget` is not a
stored entity, `winrate` has no dot, `finance` is not a category and
`sales.zzz` is not a stored metric. -/
theorem unknown_key_error_lists_options_amended_witness :
    SchemaExplorerTool.run "Widget" false =
      SchemaExplorerResult.failure
        ("Entity " ++ "Widget" ++ " not found in schema knowledge base") schemaKeys
        ("Try one of: " ++ String.intercalate ", " schemaKeys) ∧
    EntityRelationshipTool.run "Widget" none 2 =
      EntityRelResult.failure ("Source entity " ++ "Widget" ++ " not found") schemaKeys ∧
    MetricCalculatorTool.run "winrate" "last_month" none =
      MetricCalcResult.failureCats
        "Invalid metric_id format. Use category.metric_name (e.g., sales.win_rate)"
        kpiCategories ∧
    MetricCalculatorTool.run "finance.win_rate" "last_month" none =
      MetricCalcResult.failureCats ("Unknown category: " ++ "finance") kpiCategories ∧
    MetricCalculatorTool.run "sales.zzz" "last_month" none =
      MetricCalcResult.failureMetrics ("Unknown metric: " ++ "zzz")
        ((CRM_KPI_LIBRARY.headD ("", [])).2.map (fun q => q.1)) :=
  ⟨unknown_key_error_lists_options_amended.1 "Widget" false (by decide),
   unknown_key_error_lists_options_amended.2.1 "Widget" none 2 (by decide),
   unknown_key_error_lists_options_amended.2.2.1 "winrate" "last_month" none (by decide),
   unknown_key_error_lists_options_amended.2.2.2.1 "finance.win_rate" "finance" "win_rate"
     "last_month" none (by decide) (by decide),
   unknown_key_error_lists_options_amended.2.2.2.2 "sales.zzz" "sales" "zzz" "last_month"
     none _ (by decide) (by decide) (by decide)⟩
